import Mathlib

/-!
# Truffle button: hit test, event guards and state machine

A shallow embedding of `src/button.h` (classes `ButtonCallback` and
`BasicButtonObject`).  A C++ `int` is an integer, and the one arithmetic
operation of the source, the addition of two `int`s in the hit test, is the
32-bit two's complement addition `intAdd`, which wraps around.  The pointer
position that `SDL_GetMouseState` reads is an explicit argument; it is the same
for all the callbacks that run for one event, because nothing pumps the event
queue while an event is being dispatched.
-/

namespace Truffle

/-- The enum `ButtonState` of `button.h`. -/
inductive ButtonState
  | Normal
  | Hovered
  | Pressed
  deriving DecidableEq, Repr

/-- The four fields of SDL's `SDL_Rect`. -/
structure SDL_Rect where
  x : Int
  y : Int
  w : Int
  h : Int
  deriving DecidableEq, Repr

/-- The two members of SDL's `SDL_Event` that `button.h` reads: `ev.type` and
`ev.button.button`. -/
structure SDL_Event where
  type : Nat
  button : Nat
  deriving DecidableEq, Repr

/-- SDL's event type `SDL_MOUSEBUTTONDOWN`. -/
def SDL_MOUSEBUTTONDOWN : Nat := 0x401

/-- SDL's event type `SDL_MOUSEBUTTONUP`. -/
def SDL_MOUSEBUTTONUP : Nat := 0x402

/-- SDL's button index `SDL_BUTTON_LEFT`. -/
def SDL_BUTTON_LEFT : Nat := 1

/-! ## `ButtonCallback`: the hit test and the event predicates -/

/-- The C++ expression `a + b` on two `int`s, as the compiled code computes
it: the 32-bit two's complement sum, between -2147483648 and 2147483647, which
is the mathematical sum when that is representable and wraps around modulo
4294967296 when it is not. -/
def intAdd (a b : Int) : Int :=
  (a + b + 2147483648) % 4294967296 - 2147483648

/-- `ButtonCallback::isMouseHovered`, with the pointer position
`(mouse_x, mouse_y)` that `SDL_GetMouseState` returns passed in. -/
def isMouseHovered (mouse_x mouse_y : Int) (render_rect : SDL_Rect) : Bool :=
  decide (render_rect.x < mouse_x) &&
    decide (mouse_x < intAdd render_rect.x render_rect.w) &&
    decide (render_rect.y < mouse_y) &&
    decide (mouse_y < intAdd render_rect.y render_rect.h)

/-- `ButtonCallback::isMouseUnhovered`. -/
def isMouseUnhovered (mouse_x mouse_y : Int) (render_rect : SDL_Rect) : Bool :=
  !isMouseHovered mouse_x mouse_y render_rect

/-- `ButtonCallback::isPressed`. -/
def isPressed (ev : SDL_Event) (mouse_x mouse_y : Int) (render_rect : SDL_Rect) : Bool :=
  if ev.type == SDL_MOUSEBUTTONDOWN && ev.button == SDL_BUTTON_LEFT then
    isMouseHovered mouse_x mouse_y render_rect
  else
    false

/-- `ButtonCallback::isReleased`. -/
def isReleased (ev : SDL_Event) (mouse_x mouse_y : Int) (render_rect : SDL_Rect) : Bool :=
  if ev.type == SDL_MOUSEBUTTONUP && ev.button == SDL_BUTTON_LEFT then
    isMouseHovered mouse_x mouse_y render_rect
  else
    false

/-! ## The stateful-object manager -/

/-- Modelled from the spec: the error taxonomy of section 7; the header
`common/exception.h` that declares the exception type is not among the
sources. -/
inductive TruffleError
  | PreconditionViolation
  | DuplicateStateError
  | UnboundStateError
  | IllegalTransitionError
  | ResourceLoadError
  deriving DecidableEq, Repr

/-- Modelled from the spec: the class template `StatefulObjectManager` of
`common/stateful_object_manager.h`, which is not among the sources.  Section 3
gives its three components: the mapping from states to owned resources, the
set of ordered pairs that are the legal edges, and the active state. -/
structure StatefulObjectManager (Resource State : Type) [DecidableEq State] where
  objects : State → Option Resource
  transitions : Finset (State × State)
  active_state : State

namespace StatefulObjectManager

variable {Resource State : Type} [DecidableEq State]

/-- Modelled from the spec: `setInitStatefulObject` of the absent manager
header.  It constructs and binds the resource for `state` and makes `state`
the active state.  The spec requires it to be the first operation on a
manager, so it is the function that creates the manager value; `make` is the
outcome of constructing the resource from the constructor arguments, and a
failed construction registers nothing. -/
def setInitStatefulObject (state : State) (make : Except TruffleError Resource) :
    Except TruffleError (StatefulObjectManager Resource State) :=
  match make with
  | .error e => .error e
  | .ok r =>
    .ok { objects := fun s => if s = state then some r else none
          transitions := ∅
          active_state := state }

/-- Modelled from the spec: `bindStatefulObject` of the absent manager header.
It fails with `DuplicateStateError` when `state` already has a resource and
leaves the existing binding intact; otherwise it constructs the resource and
binds it, a failed construction registering nothing. -/
def bindStatefulObject (m : StatefulObjectManager Resource State) (state : State)
    (make : Except TruffleError Resource) :
    Except TruffleError (StatefulObjectManager Resource State) :=
  if (m.objects state).isSome then
    .error .DuplicateStateError
  else
    match make with
    | .error e => .error e
    | .ok r => .ok { m with objects := fun s => if s = state then some r else m.objects s }

/-- Modelled from the spec: `setStateTransition` of the absent manager header.
It adds the directed edge `(src, dst)` to the set of legal transitions. -/
def setStateTransition (m : StatefulObjectManager Resource State) (src dst : State) :
    StatefulObjectManager Resource State :=
  { m with transitions := insert (src, dst) m.transitions }

/-- Modelled from the spec: `stateTransition` of the absent manager header.
A target without a bound resource is an `UnboundStateError`; a bound target
with no declared edge from the active state is an `IllegalTransitionError`;
in both cases the manager is unchanged.  Otherwise the target becomes the
active state. -/
def stateTransition (m : StatefulObjectManager Resource State) (target : State) :
    Except TruffleError (StatefulObjectManager Resource State) :=
  if (m.objects target).isNone then
    .error .UnboundStateError
  else if (m.active_state, target) ∈ m.transitions then
    .ok { m with active_state := target }
  else
    .error .IllegalTransitionError

/-- Modelled from the spec: `activeState` of the absent manager header, a pure
read of the active state. -/
def activeState (m : StatefulObjectManager Resource State) : State :=
  m.active_state

/-- Modelled from the spec: `activeStateObject` of the absent manager header,
the resource bound to the active state; `none` when that state has no bound
resource. -/
def activeStateObject (m : StatefulObjectManager Resource State) : Option Resource :=
  m.objects m.active_state

end StatefulObjectManager

/-- Modelled from the spec: the resource class `ImageTexture` of `texture.h`,
which is not among the sources.  Of a resource the button reads only
`renderRect()`: the rectangle made of the widget's placement and the intrinsic
size of the drawable. -/
structure ImageTexture where
  name : String
  renderRect : SDL_Rect
  deriving DecidableEq, Repr

/-- Modelled from the spec: the constructor of `ImageTexture`.  `loader` is
asset resolution (section 6): it gives the intrinsic width and height of the
drawable at `path`, or nothing when the path cannot be resolved, which is a
`ResourceLoadError`. -/
def ImageTexture.new (loader : String → Option (Int × Int)) (path name : String) (x y : Int) :
    Except TruffleError ImageTexture :=
  match loader path with
  | none => .error .ResourceLoadError
  | some (w, h) => .ok { name := name, renderRect := { x := x, y := y, w := w, h := h } }

/-! ## `BasicButtonObject` -/

/-- The four virtual hooks of `ButtonCallback`. -/
inductive Hook
  | onButtonPressed
  | onButtonReleased
  | onMouseHovered
  | onMouseUnhovered
  deriving DecidableEq, Repr

/-- The four closures that the constructor of `BasicButtonObject` hands to
`setEventCallback`, each named after the member function it calls. -/
inductive EventCallback
  | mouseHovered
  | mouseUnhovered
  | buttonReleased
  | buttonPressed
  deriving DecidableEq, Repr

/-- The class `BasicButtonObject`: the `state_manager` it inherits from
`ButtonCallback`, and what it inherits from `TruffleObject` (not among the
sources), namely its name, its rectangle (written by `setPoint`, `setWidth`
and `setHeight`) and its registered event callbacks. -/
structure BasicButtonObject where
  name : String
  render_rect : SDL_Rect
  callbacks : List EventCallback
  state_manager : StatefulObjectManager ImageTexture ButtonState

/-- The result of running a member function on a button: the object after the
call and three observations of the run, in order of occurrence: the hooks that
were entered, the state changes `(before, after)` that `stateTransition`
carried out, and the errors that left the call as exceptions. -/
structure Outcome where
  self : BasicButtonObject
  invoked : List Hook
  executed : List (ButtonState × ButtonState)
  raised : List TruffleError

/-- A call that does nothing. -/
def Outcome.skip (self : BasicButtonObject) : Outcome :=
  { self := self, invoked := [], executed := [], raised := [] }

/-- A call that is left by the exception `e` before it changes anything. -/
def Outcome.raise (self : BasicButtonObject) (e : TruffleError) : Outcome :=
  { self := self, invoked := [], executed := [], raised := [e] }

/-- Sequencing of two calls: `next` has run on the object `first` left. -/
def Outcome.andThen (first next : Outcome) : Outcome :=
  { self := next.self
    invoked := first.invoked ++ next.invoked
    executed := first.executed ++ next.executed
    raised := first.raised ++ next.raised }

namespace BasicButtonObject

/-- Modelled from the spec: `TruffleObject::setPoint`, absent from the sources;
it writes the position of the widget's rectangle. -/
def setPoint (self : BasicButtonObject) (x y : Int) : BasicButtonObject :=
  { self with render_rect := { self.render_rect with x := x, y := y } }

/-- Modelled from the spec: `TruffleObject::setWidth`, absent from the sources;
it writes the width of the widget's rectangle. -/
def setWidth (self : BasicButtonObject) (w : Int) : BasicButtonObject :=
  { self with render_rect := { self.render_rect with w := w } }

/-- Modelled from the spec: `TruffleObject::setHeight`, absent from the
sources; it writes the height of the widget's rectangle. -/
def setHeight (self : BasicButtonObject) (h : Int) : BasicButtonObject :=
  { self with render_rect := { self.render_rect with h := h } }

/-- Modelled from the spec: `TruffleObject::setEventCallback`, absent from the
sources; it appends a callback to the registered ones. -/
def setEventCallback (self : BasicButtonObject) (cb : EventCallback) : BasicButtonObject :=
  { self with callbacks := self.callbacks ++ [cb] }

/-- The common body of the four hooks of `BasicButtonObject`, which differ only
in the target state: `state_manager.stateTransition(target)`, then
`setWidth` and `setHeight` from the rectangle of the active resource.  A
rejected transition leaves the hook as an exception, before the two setters
run. -/
def transitionAndResize (self : BasicButtonObject) (hook : Hook) (target : ButtonState) :
    Outcome :=
  match self.state_manager.stateTransition target with
  | .error e => { self := self, invoked := [hook], executed := [], raised := [e] }
  | .ok m =>
    let moved : BasicButtonObject := { self with state_manager := m }
    let change := (self.state_manager.activeState, m.activeState)
    match m.activeStateObject with
    | none =>
      { self := moved, invoked := [hook], executed := [change],
        raised := [.PreconditionViolation] }
    | some tex =>
      { self := (moved.setWidth tex.renderRect.w).setHeight tex.renderRect.h
        invoked := [hook], executed := [change], raised := [] }

/-- `BasicButtonObject::onButtonPressed`. -/
def onButtonPressed (self : BasicButtonObject) : Outcome :=
  self.transitionAndResize Hook.onButtonPressed ButtonState.Pressed

/-- `BasicButtonObject::onButtonReleased`. -/
def onButtonReleased (self : BasicButtonObject) : Outcome :=
  self.transitionAndResize Hook.onButtonReleased ButtonState.Hovered

/-- `BasicButtonObject::onMouseHovered`. -/
def onMouseHovered (self : BasicButtonObject) : Outcome :=
  self.transitionAndResize Hook.onMouseHovered ButtonState.Hovered

/-- `BasicButtonObject::onMouseUnhovered`. -/
def onMouseUnhovered (self : BasicButtonObject) : Outcome :=
  self.transitionAndResize Hook.onMouseUnhovered ButtonState.Normal

/-- `ButtonCallback::_onButtonPressed` on a `BasicButtonObject`.  Reading the
active resource when the active state has none is a precondition violation. -/
def _onButtonPressed (self : BasicButtonObject) (ev : SDL_Event) (mouse_x mouse_y : Int) :
    Outcome :=
  match self.state_manager.activeStateObject with
  | none => Outcome.raise self .PreconditionViolation
  | some tex =>
    if isPressed ev mouse_x mouse_y tex.renderRect &&
        self.state_manager.activeState == ButtonState.Hovered then
      self.onButtonPressed
    else
      Outcome.skip self

/-- `ButtonCallback::_onButtonReleased` on a `BasicButtonObject`. -/
def _onButtonReleased (self : BasicButtonObject) (ev : SDL_Event) (mouse_x mouse_y : Int) :
    Outcome :=
  match self.state_manager.activeStateObject with
  | none => Outcome.raise self .PreconditionViolation
  | some tex =>
    if isReleased ev mouse_x mouse_y tex.renderRect &&
        self.state_manager.activeState == ButtonState.Pressed then
      self.onButtonReleased
    else
      Outcome.skip self

/-- `ButtonCallback::_onMouseHovered` on a `BasicButtonObject`; the event is
not read. -/
def _onMouseHovered (self : BasicButtonObject) (_ev : SDL_Event) (mouse_x mouse_y : Int) :
    Outcome :=
  match self.state_manager.activeStateObject with
  | none => Outcome.raise self .PreconditionViolation
  | some tex =>
    if isMouseHovered mouse_x mouse_y tex.renderRect &&
        self.state_manager.activeState == ButtonState.Normal then
      self.onMouseHovered
    else
      Outcome.skip self

/-- `ButtonCallback::_onMouseUnhovered` on a `BasicButtonObject`; the event is
not read. -/
def _onMouseUnhovered (self : BasicButtonObject) (_ev : SDL_Event) (mouse_x mouse_y : Int) :
    Outcome :=
  match self.state_manager.activeStateObject with
  | none => Outcome.raise self .PreconditionViolation
  | some tex =>
    if isMouseUnhovered mouse_x mouse_y tex.renderRect &&
        self.state_manager.activeState == ButtonState.Hovered then
      self.onMouseUnhovered
    else
      Outcome.skip self

end BasicButtonObject

/-- The result of dispatching one event to a button: the outcome of the
callbacks, run one after the other, and the callbacks that were handed the
event, in the order in which they were run. -/
structure Dispatched extends Outcome where
  ran : List EventCallback

/-- The body of each closure registered by the constructor. -/
def EventCallback.run : EventCallback → BasicButtonObject → SDL_Event → Int → Int → Outcome
  | .mouseHovered, self, e, mouse_x, mouse_y => self._onMouseHovered e mouse_x mouse_y
  | .mouseUnhovered, self, e, mouse_x, mouse_y => self._onMouseUnhovered e mouse_x mouse_y
  | .buttonReleased, self, e, mouse_x, mouse_y => self._onButtonReleased e mouse_x mouse_y
  | .buttonPressed, self, e, mouse_x, mouse_y => self._onButtonPressed e mouse_x mouse_y

namespace BasicButtonObject

/-- Modelled from the spec: the event dispatch of `TruffleObject`, absent from
the sources.  One event is handed to every registered callback in registration
order, each callback working on the object as the previous one left it; an
error raised by a callback is reported and the loop goes on with the next
callback (section 5: all four guards are evaluated for an event; section 7:
structural errors never crash the event-dispatch loop).  The callbacks that
were handed the event are recorded in `ran`. -/
def dispatch (self : BasicButtonObject) (ev : SDL_Event) (mouse_x mouse_y : Int) :
    Dispatched :=
  self.callbacks.foldl
    (fun acc cb =>
      { toOutcome := acc.toOutcome.andThen (cb.run acc.self ev mouse_x mouse_y)
        ran := acc.ran ++ [cb] })
    { toOutcome := Outcome.skip self, ran := [] }

/-- The constructor `BasicButtonObject::BasicButtonObject`.  The controller and
the renderer are passed on to the textures untouched and are left out; `loader`
stands for asset resolution.  An exception of a manager operation leaves the
constructor, and then no object exists. -/
def new (loader : String → Option (Int × Int)) (name : String) (x y : Int)
    (path_normal path_hovered path_pressed : String) : Except TruffleError BasicButtonObject := do
  let m ← StatefulObjectManager.setInitStatefulObject ButtonState.Normal
    (ImageTexture.new loader path_normal (name ++ "_normal") x y)
  -- Bind object
  let m ← if !path_hovered.isEmpty then
      m.bindStatefulObject ButtonState.Hovered
        (ImageTexture.new loader path_hovered (name ++ "_hovered") x y)
    else pure m
  let m ← if !path_pressed.isEmpty then
      m.bindStatefulObject ButtonState.Pressed
        (ImageTexture.new loader path_pressed (name ++ "_pressed") x y)
    else pure m
  -- define state transition
  let m := m.setStateTransition ButtonState.Hovered ButtonState.Pressed
  let m := m.setStateTransition ButtonState.Pressed ButtonState.Hovered
  let m := m.setStateTransition ButtonState.Normal ButtonState.Hovered
  let m := m.setStateTransition ButtonState.Hovered ButtonState.Normal
  match m.activeStateObject with
  | none => throw .PreconditionViolation
  | some tex =>
    let self : BasicButtonObject :=
      { name := name, render_rect := { x := 0, y := 0, w := 0, h := 0 }, callbacks := [],
        state_manager := m }
    let self := self.setPoint tex.renderRect.x tex.renderRect.y
    let self := self.setWidth tex.renderRect.w
    let self := self.setHeight tex.renderRect.h
    -- Register event callbacks
    let self := self.setEventCallback EventCallback.mouseHovered
    let self := self.setEventCallback EventCallback.mouseUnhovered
    let self := self.setEventCallback EventCallback.buttonReleased
    let self := self.setEventCallback EventCallback.buttonPressed
    pure self

/-- The object after a sequence of events, each with the pointer position at
the time it is dispatched. -/
def runEvents (self : BasicButtonObject) (evs : List (SDL_Event × Int × Int)) :
    BasicButtonObject :=
  evs.foldl (fun b e => (b.dispatch e.1 e.2.1 e.2.2).self) self

end BasicButtonObject

/-- What the code that owns a button can do to it: hand it an event, with the
pointer position at that time, or call `stateTransition` on its
`state_manager`, which is a public member of `ButtonCallback`. -/
inductive Stimulus
  | event (ev : SDL_Event) (mouse_x mouse_y : Int)
  | request (target : ButtonState)

namespace BasicButtonObject

/-- A direct call `state_manager.stateTransition(target)` from outside the
hooks: the manager moves when the request is accepted, and a rejected request
changes nothing. -/
def requestTransition (self : BasicButtonObject) (target : ButtonState) : BasicButtonObject :=
  match self.state_manager.stateTransition target with
  | .ok m => { self with state_manager := m }
  | .error _ => self

/-- The object after one stimulus. -/
def react (self : BasicButtonObject) : Stimulus → BasicButtonObject
  | .event ev mouse_x mouse_y => (self.dispatch ev mouse_x mouse_y).self
  | .request target => self.requestTransition target

/-- The object after a sequence of events and transition requests. -/
def runStimuli (self : BasicButtonObject) (stimuli : List Stimulus) : BasicButtonObject :=
  stimuli.foldl react self

end BasicButtonObject

/-- An asset table for examples: every path resolves, to a drawable whose
width is ten times the length of the path and whose height is 20. -/
def exampleLoader (path : String) : Option (Int × Int) :=
  some (10 * (path.length : Int), 20)

/-- The button that `BasicButtonObject::BasicButtonObject` builds at (100, 100)
from the three texture paths "nnnn", "hhhh" and "pppp" with the asset table
`exampleLoader` (see `new_exampleButton`): all three states are bound, to
rectangles 40 wide and 20 high. -/
def exampleButton : BasicButtonObject :=
  { name := "b"
    render_rect := { x := 100, y := 100, w := 40, h := 20 }
    callbacks := [EventCallback.mouseHovered, EventCallback.mouseUnhovered,
      EventCallback.buttonReleased, EventCallback.buttonPressed]
    state_manager :=
      { objects := fun s =>
          if s = ButtonState.Pressed then
            some { name := "b_pressed", renderRect := { x := 100, y := 100, w := 40, h := 20 } }
          else if s = ButtonState.Hovered then
            some { name := "b_hovered", renderRect := { x := 100, y := 100, w := 40, h := 20 } }
          else if s = ButtonState.Normal then
            some { name := "b_normal", renderRect := { x := 100, y := 100, w := 40, h := 20 } }
          else none
        transitions :=
          insert (ButtonState.Hovered, ButtonState.Normal)
            (insert (ButtonState.Normal, ButtonState.Hovered)
              (insert (ButtonState.Pressed, ButtonState.Hovered)
                (insert (ButtonState.Hovered, ButtonState.Pressed) ∅)))
        active_state := ButtonState.Normal } }

/-- The button that the constructor builds at (100, 100) from the texture path
"nnnn" alone, the two optional paths being empty, with `exampleLoader` (see
`new_normalOnlyButton`): only `Normal` is bound. -/
def normalOnlyButton : BasicButtonObject :=
  { name := "n"
    render_rect := { x := 100, y := 100, w := 40, h := 20 }
    callbacks := [EventCallback.mouseHovered, EventCallback.mouseUnhovered,
      EventCallback.buttonReleased, EventCallback.buttonPressed]
    state_manager :=
      { objects := fun s =>
          if s = ButtonState.Normal then
            some { name := "n_normal", renderRect := { x := 100, y := 100, w := 40, h := 20 } }
          else none
        transitions :=
          insert (ButtonState.Hovered, ButtonState.Normal)
            (insert (ButtonState.Normal, ButtonState.Hovered)
              (insert (ButtonState.Pressed, ButtonState.Hovered)
                (insert (ButtonState.Hovered, ButtonState.Pressed) ∅)))
        active_state := ButtonState.Normal } }

/-- A button in state `Hovered` whose resources are all 1 wide and 20 high, at
(100, 100): the example button with its manager replaced. -/
def flatButton : BasicButtonObject :=
  { exampleButton with
    render_rect := { x := 100, y := 100, w := 1, h := 20 }
    state_manager :=
      { exampleButton.state_manager with
        objects := fun _ =>
          some { name := "flat", renderRect := { x := 100, y := 100, w := 1, h := 20 } }
        active_state := ButtonState.Hovered } }

end Truffle


namespace Truffle

/-! ## Shared lemmas on the hooks -/

theorem transitionAndResize_invoked (self : BasicButtonObject) (hook : Hook)
    (target : ButtonState) : (self.transitionAndResize hook target).invoked = [hook] := by
  unfold BasicButtonObject.transitionAndResize
  cases self.state_manager.stateTransition target with
  | error e => rfl
  | ok m =>
    simp only
    cases m.activeStateObject <;> rfl

theorem stateTransition_eq_ok_iff {Resource State : Type} [DecidableEq State]
    (m m' : StatefulObjectManager Resource State) (target : State) :
    m.stateTransition target = .ok m' ↔
      ((m.objects target).isSome = true ∧ (m.active_state, target) ∈ m.transitions ∧
        m' = { m with active_state := target }) := by
  unfold StatefulObjectManager.stateTransition
  cases hobj : m.objects target with
  | none => simp
  | some r =>
    by_cases hedge : (m.active_state, target) ∈ m.transitions
    · simp [hedge, eq_comm]
    · simp [hedge]

/-- What a hook does: either the request is rejected and the object is left as
it was, or the target is bound and the edge declared, the target becomes the
active state and the width and height are those of its resource. -/
theorem transitionAndResize_cases (self : BasicButtonObject) (hook : Hook)
    (target : ButtonState) :
    ((self.transitionAndResize hook target).self = self ∧
      (self.transitionAndResize hook target).executed = [] ∧
      (self.transitionAndResize hook target).raised ≠ []) ∨
    (∃ tex, self.state_manager.objects target = some tex ∧
      (self.state_manager.active_state, target) ∈ self.state_manager.transitions ∧
      (self.transitionAndResize hook target).self =
        (({ self with state_manager := { self.state_manager with active_state := target } } :
          BasicButtonObject).setWidth tex.renderRect.w).setHeight tex.renderRect.h ∧
      (self.transitionAndResize hook target).executed =
        [(self.state_manager.active_state, target)] ∧
      (self.transitionAndResize hook target).raised = []) := by
  unfold BasicButtonObject.transitionAndResize
  cases hst : self.state_manager.stateTransition target with
  | error e => exact Or.inl ⟨rfl, rfl, by simp⟩
  | ok m =>
    obtain ⟨hsome, hedge, rfl⟩ := (stateTransition_eq_ok_iff _ _ _).1 hst
    obtain ⟨tex, htex⟩ := Option.isSome_iff_exists.1 hsome
    refine Or.inr ⟨tex, htex, hedge, ?_⟩
    simp [StatefulObjectManager.activeStateObject, StatefulObjectManager.activeState, htex]

/-! ## The hit test -/

theorem intAdd_eq_add (a b : Int)
    (h : -2147483648 ≤ a + b ∧ a + b ≤ 2147483647) : intAdd a b = a + b := by
  unfold intAdd
  omega

theorem isMouseHovered_eq_true_iff (mouse_x mouse_y : Int) (r : SDL_Rect) :
    isMouseHovered mouse_x mouse_y r = true ↔
      (r.x < mouse_x ∧ mouse_x < intAdd r.x r.w ∧ r.y < mouse_y ∧ mouse_y < intAdd r.y r.h) := by
  simp [isMouseHovered, and_assoc]

theorem isPressed_eq_true_iff (ev : SDL_Event) (mouse_x mouse_y : Int) (r : SDL_Rect) :
    isPressed ev mouse_x mouse_y r = true ↔
      (ev.type = SDL_MOUSEBUTTONDOWN ∧ ev.button = SDL_BUTTON_LEFT ∧
        r.x < mouse_x ∧ mouse_x < intAdd r.x r.w ∧ r.y < mouse_y ∧ mouse_y < intAdd r.y r.h) := by
  rw [← isMouseHovered_eq_true_iff]
  unfold isPressed
  split <;> rename_i h
  · simp only [Bool.and_eq_true, beq_iff_eq] at h
    tauto
  · simp only [Bool.and_eq_true, beq_iff_eq] at h
    simp only [Bool.false_eq_true, false_iff]
    tauto

theorem isReleased_eq_true_iff (ev : SDL_Event) (mouse_x mouse_y : Int) (r : SDL_Rect) :
    isReleased ev mouse_x mouse_y r = true ↔
      (ev.type = SDL_MOUSEBUTTONUP ∧ ev.button = SDL_BUTTON_LEFT ∧
        r.x < mouse_x ∧ mouse_x < intAdd r.x r.w ∧ r.y < mouse_y ∧ mouse_y < intAdd r.y r.h) := by
  rw [← isMouseHovered_eq_true_iff]
  unfold isReleased
  split <;> rename_i h
  · simp only [Bool.and_eq_true, beq_iff_eq] at h
    tauto
  · simp only [Bool.and_eq_true, beq_iff_eq] at h
    simp only [Bool.false_eq_true, false_iff]
    tauto

/-- C1, as amended: `isMouseHovered` is true exactly when `x < px`, `px` is
below the 32-bit sum of `x` and `w`, `y < py` and `py` is below the 32-bit sum
of `y` and `h`, all four inequalities strict; for every rectangle whose sums
`x + w` and `y + h` are representable as a 32-bit `int` this is
`x < px < x + w` and `y < py < y + h`.  `isMouseUnhovered` is the negation. -/
theorem isMouseHovered_iff_strictly_inside (render_rect : SDL_Rect) (mouse_x mouse_y : Int) :
    (isMouseHovered mouse_x mouse_y render_rect = true ↔
      (render_rect.x < mouse_x ∧ mouse_x < intAdd render_rect.x render_rect.w ∧
        render_rect.y < mouse_y ∧ mouse_y < intAdd render_rect.y render_rect.h)) ∧
    ((-2147483648 ≤ render_rect.x + render_rect.w ∧
        render_rect.x + render_rect.w ≤ 2147483647) →
      (-2147483648 ≤ render_rect.y + render_rect.h ∧
        render_rect.y + render_rect.h ≤ 2147483647) →
      (isMouseHovered mouse_x mouse_y render_rect = true ↔
        (render_rect.x < mouse_x ∧ mouse_x < render_rect.x + render_rect.w ∧
          render_rect.y < mouse_y ∧ mouse_y < render_rect.y + render_rect.h))) ∧
    isMouseUnhovered mouse_x mouse_y render_rect = !isMouseHovered mouse_x mouse_y render_rect := by
  refine ⟨isMouseHovered_eq_true_iff mouse_x mouse_y render_rect, ?_, rfl⟩
  intro hx hy
  rw [isMouseHovered_eq_true_iff, intAdd_eq_add _ _ hx, intAdd_eq_add _ _ hy]

/-- C1, witness of the amended statement: the rectangle at (100, 100), 40 wide
and 20 high, and the pointer at (110, 110). -/
theorem isMouseHovered_iff_strictly_inside_witness :
    ((-2147483648 : Int) ≤ 100 + 40 ∧ (100 : Int) + 40 ≤ 2147483647) ∧
    ((-2147483648 : Int) ≤ 100 + 20 ∧ (100 : Int) + 20 ≤ 2147483647) ∧
    (isMouseHovered 110 110 { x := 100, y := 100, w := 40, h := 20 } = true ↔
      ((100 : Int) < 110 ∧ (110 : Int) < 100 + 40 ∧ (100 : Int) < 110 ∧ (110 : Int) < 100 + 20)) :=
  ⟨by decide, by decide,
    (isMouseHovered_iff_strictly_inside { x := 100, y := 100, w := 40, h := 20 } 110 110).2.1
      (by decide) (by decide)⟩

/-- C1, counterexample: the rectangle at (2147483600, 0), 100 wide and 10 high,
and the pointer at (2147483640, 5), all of them 32-bit `int` values.  The
pointer satisfies `x < px < x + w` and `y < py < y + h`, and `isMouseHovered`
is false: the sum `x + w` is 2147483700, which is not representable, and the
32-bit sum the code compares with is negative. -/
theorem isMouseHovered_misses_when_sum_overflows :
    ((2147483600 : Int) < 2147483640 ∧ (2147483640 : Int) < 2147483600 + 100 ∧
      (0 : Int) < 5 ∧ (5 : Int) < 0 + 10) ∧
    intAdd 2147483600 100 = -2147483596 ∧
    isMouseHovered 2147483640 5 { x := 2147483600, y := 0, w := 100, h := 10 } = false :=
  ⟨by decide, by decide, by decide⟩

/-! ## The four guards -/

theorem idle_or_hook_onButtonPressed (self : BasicButtonObject) (ev : SDL_Event)
    (mouse_x mouse_y : Int) :
    ((self._onButtonPressed ev mouse_x mouse_y).invoked = [] ∧
        (self._onButtonPressed ev mouse_x mouse_y).self = self ∧
        (self._onButtonPressed ev mouse_x mouse_y).executed = []) ∨
      self._onButtonPressed ev mouse_x mouse_y = self.onButtonPressed := by
  unfold BasicButtonObject._onButtonPressed
  cases self.state_manager.activeStateObject with
  | none => exact Or.inl ⟨rfl, rfl, rfl⟩
  | some tex =>
    simp only
    split
    · exact Or.inr rfl
    · exact Or.inl ⟨rfl, rfl, rfl⟩

theorem idle_or_hook_onButtonReleased (self : BasicButtonObject) (ev : SDL_Event)
    (mouse_x mouse_y : Int) :
    ((self._onButtonReleased ev mouse_x mouse_y).invoked = [] ∧
        (self._onButtonReleased ev mouse_x mouse_y).self = self ∧
        (self._onButtonReleased ev mouse_x mouse_y).executed = []) ∨
      self._onButtonReleased ev mouse_x mouse_y = self.onButtonReleased := by
  unfold BasicButtonObject._onButtonReleased
  cases self.state_manager.activeStateObject with
  | none => exact Or.inl ⟨rfl, rfl, rfl⟩
  | some tex =>
    simp only
    split
    · exact Or.inr rfl
    · exact Or.inl ⟨rfl, rfl, rfl⟩

theorem idle_or_hook_onMouseHovered (self : BasicButtonObject) (ev : SDL_Event)
    (mouse_x mouse_y : Int) :
    ((self._onMouseHovered ev mouse_x mouse_y).invoked = [] ∧
        (self._onMouseHovered ev mouse_x mouse_y).self = self ∧
        (self._onMouseHovered ev mouse_x mouse_y).executed = []) ∨
      self._onMouseHovered ev mouse_x mouse_y = self.onMouseHovered := by
  unfold BasicButtonObject._onMouseHovered
  cases self.state_manager.activeStateObject with
  | none => exact Or.inl ⟨rfl, rfl, rfl⟩
  | some tex =>
    simp only
    split
    · exact Or.inr rfl
    · exact Or.inl ⟨rfl, rfl, rfl⟩

theorem idle_or_hook_onMouseUnhovered (self : BasicButtonObject) (ev : SDL_Event)
    (mouse_x mouse_y : Int) :
    ((self._onMouseUnhovered ev mouse_x mouse_y).invoked = [] ∧
        (self._onMouseUnhovered ev mouse_x mouse_y).self = self ∧
        (self._onMouseUnhovered ev mouse_x mouse_y).executed = []) ∨
      self._onMouseUnhovered ev mouse_x mouse_y = self.onMouseUnhovered := by
  unfold BasicButtonObject._onMouseUnhovered
  cases self.state_manager.activeStateObject with
  | none => exact Or.inl ⟨rfl, rfl, rfl⟩
  | some tex =>
    simp only
    split
    · exact Or.inr rfl
    · exact Or.inl ⟨rfl, rfl, rfl⟩

/-- C6: for a fixed object (current state and active rectangle), event and
pointer position, at most one of the four guards is true: the four callbacks,
each run on that same object, enter at most one hook between them. -/
theorem guards_mutually_exclusive (self : BasicButtonObject) (ev : SDL_Event)
    (mouse_x mouse_y : Int) :
    ((self._onMouseHovered ev mouse_x mouse_y).invoked ++
      (self._onMouseUnhovered ev mouse_x mouse_y).invoked ++
      (self._onButtonPressed ev mouse_x mouse_y).invoked ++
      (self._onButtonReleased ev mouse_x mouse_y).invoked).length ≤ 1 := by
  unfold BasicButtonObject._onMouseHovered BasicButtonObject._onMouseUnhovered
    BasicButtonObject._onButtonPressed BasicButtonObject._onButtonReleased
  cases self.state_manager.activeStateObject with
  | none => simp [Outcome.raise]
  | some tex =>
    simp only [isMouseUnhovered, isPressed, isReleased, BasicButtonObject.onMouseHovered,
      BasicButtonObject.onMouseUnhovered, BasicButtonObject.onButtonPressed,
      BasicButtonObject.onButtonReleased]
    cases self.state_manager.activeState <;>
      cases isMouseHovered mouse_x mouse_y tex.renderRect <;>
      simp [Outcome.skip, transitionAndResize_invoked] <;>
      split <;> simp [transitionAndResize_invoked]

/-! ## One callback as a step of the state machine -/

theorem transitionAndResize_step (self : BasicButtonObject) (hook : Hook)
    (target : ButtonState) :
    (self.transitionAndResize hook target).invoked = [hook] ∧
    (((self.transitionAndResize hook target).self = self ∧
        (self.transitionAndResize hook target).executed = []) ∨
      ((self.transitionAndResize hook target).self.state_manager.activeState = target ∧
        (self.transitionAndResize hook target).executed =
          [(self.state_manager.activeState, target)])) := by
  refine ⟨transitionAndResize_invoked _ _ _, ?_⟩
  rcases transitionAndResize_cases self hook target with
    ⟨h1, h2, _⟩ | ⟨tex, _, _, h1, h2, _⟩
  · exact Or.inl ⟨h1, h2⟩
  · refine Or.inr ⟨?_, h2⟩
    rw [h1]
    rfl

theorem step_onMouseHovered (self : BasicButtonObject) (ev : SDL_Event) (mouse_x mouse_y : Int) :
    ((self._onMouseHovered ev mouse_x mouse_y).invoked = [] ∧
      (self._onMouseHovered ev mouse_x mouse_y).self = self ∧
      (self._onMouseHovered ev mouse_x mouse_y).executed = []) ∨
    ((self._onMouseHovered ev mouse_x mouse_y).invoked = [Hook.onMouseHovered] ∧
      self.state_manager.activeState = ButtonState.Normal ∧
      (((self._onMouseHovered ev mouse_x mouse_y).self = self ∧
          (self._onMouseHovered ev mouse_x mouse_y).executed = []) ∨
        ((self._onMouseHovered ev mouse_x mouse_y).self.state_manager.activeState =
            ButtonState.Hovered ∧
          (self._onMouseHovered ev mouse_x mouse_y).executed =
            [(ButtonState.Normal, ButtonState.Hovered)]))) := by
  unfold BasicButtonObject._onMouseHovered
  cases self.state_manager.activeStateObject with
  | none => exact Or.inl ⟨rfl, rfl, rfl⟩
  | some tex =>
    simp only
    split <;> rename_i hg
    · simp only [Bool.and_eq_true, beq_iff_eq] at hg
      have hs := transitionAndResize_step self Hook.onMouseHovered ButtonState.Hovered
      rw [hg.2] at hs
      exact Or.inr ⟨hs.1, hg.2, hs.2⟩
    · exact Or.inl ⟨rfl, rfl, rfl⟩

theorem step_onMouseUnhovered (self : BasicButtonObject) (ev : SDL_Event)
    (mouse_x mouse_y : Int) :
    ((self._onMouseUnhovered ev mouse_x mouse_y).invoked = [] ∧
      (self._onMouseUnhovered ev mouse_x mouse_y).self = self ∧
      (self._onMouseUnhovered ev mouse_x mouse_y).executed = []) ∨
    ((self._onMouseUnhovered ev mouse_x mouse_y).invoked = [Hook.onMouseUnhovered] ∧
      self.state_manager.activeState = ButtonState.Hovered ∧
      self.state_manager.activeStateObject.map
        (fun tex => isMouseHovered mouse_x mouse_y tex.renderRect) = some false ∧
      (((self._onMouseUnhovered ev mouse_x mouse_y).self = self ∧
          (self._onMouseUnhovered ev mouse_x mouse_y).executed = []) ∨
        ((self._onMouseUnhovered ev mouse_x mouse_y).self.state_manager.activeState =
            ButtonState.Normal ∧
          (self._onMouseUnhovered ev mouse_x mouse_y).executed =
            [(ButtonState.Hovered, ButtonState.Normal)]))) := by
  unfold BasicButtonObject._onMouseUnhovered
  cases self.state_manager.activeStateObject with
  | none => exact Or.inl ⟨rfl, rfl, rfl⟩
  | some tex =>
    simp only
    split <;> rename_i hg
    · simp only [Bool.and_eq_true, beq_iff_eq, isMouseUnhovered, Bool.not_eq_true'] at hg
      have hs := transitionAndResize_step self Hook.onMouseUnhovered ButtonState.Normal
      rw [hg.2] at hs
      exact Or.inr ⟨hs.1, hg.2, by simp [hg.1], hs.2⟩
    · exact Or.inl ⟨rfl, rfl, rfl⟩

theorem step_onButtonReleased (self : BasicButtonObject) (ev : SDL_Event)
    (mouse_x mouse_y : Int) :
    ((self._onButtonReleased ev mouse_x mouse_y).invoked = [] ∧
      (self._onButtonReleased ev mouse_x mouse_y).self = self ∧
      (self._onButtonReleased ev mouse_x mouse_y).executed = []) ∨
    ((self._onButtonReleased ev mouse_x mouse_y).invoked = [Hook.onButtonReleased] ∧
      self.state_manager.activeState = ButtonState.Pressed ∧
      ev.type = SDL_MOUSEBUTTONUP ∧
      (((self._onButtonReleased ev mouse_x mouse_y).self = self ∧
          (self._onButtonReleased ev mouse_x mouse_y).executed = []) ∨
        ((self._onButtonReleased ev mouse_x mouse_y).self.state_manager.activeState =
            ButtonState.Hovered ∧
          (self._onButtonReleased ev mouse_x mouse_y).executed =
            [(ButtonState.Pressed, ButtonState.Hovered)]))) := by
  unfold BasicButtonObject._onButtonReleased
  cases self.state_manager.activeStateObject with
  | none => exact Or.inl ⟨rfl, rfl, rfl⟩
  | some tex =>
    simp only
    split <;> rename_i hg
    · simp only [Bool.and_eq_true, beq_iff_eq, isReleased_eq_true_iff] at hg
      have hs := transitionAndResize_step self Hook.onButtonReleased ButtonState.Hovered
      rw [hg.2] at hs
      exact Or.inr ⟨hs.1, hg.2, hg.1.1, hs.2⟩
    · exact Or.inl ⟨rfl, rfl, rfl⟩

theorem step_onButtonPressed (self : BasicButtonObject) (ev : SDL_Event)
    (mouse_x mouse_y : Int) :
    ((self._onButtonPressed ev mouse_x mouse_y).invoked = [] ∧
      (self._onButtonPressed ev mouse_x mouse_y).self = self ∧
      (self._onButtonPressed ev mouse_x mouse_y).executed = []) ∨
    ((self._onButtonPressed ev mouse_x mouse_y).invoked = [Hook.onButtonPressed] ∧
      self.state_manager.activeState = ButtonState.Hovered ∧
      ev.type = SDL_MOUSEBUTTONDOWN ∧
      self.state_manager.activeStateObject.map
        (fun tex => isMouseHovered mouse_x mouse_y tex.renderRect) = some true ∧
      (((self._onButtonPressed ev mouse_x mouse_y).self = self ∧
          (self._onButtonPressed ev mouse_x mouse_y).executed = []) ∨
        ((self._onButtonPressed ev mouse_x mouse_y).self.state_manager.activeState =
            ButtonState.Pressed ∧
          (self._onButtonPressed ev mouse_x mouse_y).executed =
            [(ButtonState.Hovered, ButtonState.Pressed)]))) := by
  unfold BasicButtonObject._onButtonPressed
  cases self.state_manager.activeStateObject with
  | none => exact Or.inl ⟨rfl, rfl, rfl⟩
  | some tex =>
    simp only
    split <;> rename_i hg
    · simp only [Bool.and_eq_true, beq_iff_eq, isPressed_eq_true_iff] at hg
      have hs := transitionAndResize_step self Hook.onButtonPressed ButtonState.Pressed
      rw [hg.2] at hs
      exact Or.inr ⟨hs.1, hg.2, hg.1.1,
        by simp [isMouseHovered_eq_true_iff, hg.1.2.2], hs.2⟩
    · exact Or.inl ⟨rfl, rfl, rfl⟩

theorem foldl_dispatched (ev : SDL_Event) (mouse_x mouse_y : Int) (l : List EventCallback)
    (acc : Dispatched) :
    (l.foldl (fun (acc : Dispatched) cb =>
        ({ toOutcome := acc.toOutcome.andThen (cb.run acc.self ev mouse_x mouse_y)
           ran := acc.ran ++ [cb] } : Dispatched)) acc).toOutcome =
      l.foldl (fun acc cb => acc.andThen (cb.run acc.self ev mouse_x mouse_y)) acc.toOutcome ∧
    (l.foldl (fun (acc : Dispatched) cb =>
        ({ toOutcome := acc.toOutcome.andThen (cb.run acc.self ev mouse_x mouse_y)
           ran := acc.ran ++ [cb] } : Dispatched)) acc).ran = acc.ran ++ l := by
  induction l generalizing acc with
  | nil => exact ⟨rfl, by simp⟩
  | cons cb rest ih =>
    rw [List.foldl_cons, List.foldl_cons]
    obtain ⟨h1, h2⟩ := ih
      { toOutcome := acc.toOutcome.andThen (cb.run acc.self ev mouse_x mouse_y)
        ran := acc.ran ++ [cb] }
    exact ⟨h1, by rw [h2]; simp⟩

/-- The outcome of a dispatch is that of the registered callbacks run one after
the other. -/
theorem dispatch_toOutcome (self : BasicButtonObject) (ev : SDL_Event) (mouse_x mouse_y : Int) :
    (self.dispatch ev mouse_x mouse_y).toOutcome =
      self.callbacks.foldl (fun acc cb => acc.andThen (cb.run acc.self ev mouse_x mouse_y))
        (Outcome.skip self) :=
  (foldl_dispatched ev mouse_x mouse_y self.callbacks
    { toOutcome := Outcome.skip self, ran := [] }).1

theorem dispatch_registered (self : BasicButtonObject) (ev : SDL_Event) (mouse_x mouse_y : Int)
    (hcb : self.callbacks = [EventCallback.mouseHovered, EventCallback.mouseUnhovered,
      EventCallback.buttonReleased, EventCallback.buttonPressed]) :
    (self.dispatch ev mouse_x mouse_y).toOutcome =
      ((((Outcome.skip self).andThen (self._onMouseHovered ev mouse_x mouse_y)).andThen
        ((self._onMouseHovered ev mouse_x mouse_y).self._onMouseUnhovered ev mouse_x mouse_y)).andThen
        (((self._onMouseHovered ev mouse_x mouse_y).self._onMouseUnhovered
          ev mouse_x mouse_y).self._onButtonReleased ev mouse_x mouse_y)).andThen
        ((((self._onMouseHovered ev mouse_x mouse_y).self._onMouseUnhovered
          ev mouse_x mouse_y).self._onButtonReleased ev mouse_x mouse_y).self._onButtonPressed
          ev mouse_x mouse_y) := by
  rw [dispatch_toOutcome, hcb]
  rfl

/-! ## One event -/

/-- C7, as amended: one event dispatched to an object with the four callbacks
of the constructor enters at most two hooks.  When the state before the event
is `Hovered` or `Pressed` at most one hook is entered; from `Normal` the
hover-in hook can be followed, within the same event, by the hover-out hook or
by the press hook.  The transitions carried out are at most as many as the
hooks entered. -/
theorem dispatch_fires_at_most_two (self : BasicButtonObject) (ev : SDL_Event)
    (mouse_x mouse_y : Int)
    (hcb : self.callbacks = [EventCallback.mouseHovered, EventCallback.mouseUnhovered,
      EventCallback.buttonReleased, EventCallback.buttonPressed]) :
    ((self.dispatch ev mouse_x mouse_y).invoked.length ≤ 1 ∨
      (self.state_manager.activeState = ButtonState.Normal ∧
        ((self.dispatch ev mouse_x mouse_y).invoked =
            [Hook.onMouseHovered, Hook.onMouseUnhovered] ∨
          (self.dispatch ev mouse_x mouse_y).invoked =
            [Hook.onMouseHovered, Hook.onButtonPressed]))) ∧
    (self.dispatch ev mouse_x mouse_y).executed.length ≤
      (self.dispatch ev mouse_x mouse_y).invoked.length := by
  rw [dispatch_registered self ev mouse_x mouse_y hcb]
  have h1 := step_onMouseHovered self ev mouse_x mouse_y
  generalize self._onMouseHovered ev mouse_x mouse_y = o1 at h1 ⊢
  have h2 := step_onMouseUnhovered o1.self ev mouse_x mouse_y
  generalize o1.self._onMouseUnhovered ev mouse_x mouse_y = o2 at h2 ⊢
  have h3 := step_onButtonReleased o2.self ev mouse_x mouse_y
  generalize o2.self._onButtonReleased ev mouse_x mouse_y = o3 at h3 ⊢
  have h4 := step_onButtonPressed o3.self ev mouse_x mouse_y
  generalize o3.self._onButtonPressed ev mouse_x mouse_y = o4 at h4 ⊢
  simp only [Outcome.andThen, Outcome.skip, List.nil_append]
  have hne : SDL_MOUSEBUTTONDOWN ≠ SDL_MOUSEBUTTONUP := by decide
  rcases h1 with ⟨i1, s1, e1⟩ | ⟨i1, r1, (⟨s1, e1⟩ | ⟨t1, e1⟩)⟩ <;>
  rcases h2 with ⟨i2, s2, e2⟩ | ⟨i2, r2, m2, (⟨s2, e2⟩ | ⟨t2, e2⟩)⟩ <;>
  rcases h3 with ⟨i3, s3, e3⟩ | ⟨i3, r3, u3, (⟨s3, e3⟩ | ⟨t3, e3⟩)⟩ <;>
  rcases h4 with ⟨i4, s4, e4⟩ | ⟨i4, r4, d4, m4, (⟨s4, e4⟩ | ⟨t4, e4⟩)⟩ <;>
  simp_all <;>
  (obtain ⟨a, ha, hmiss⟩ := m2
   obtain ⟨b, hb, hhit⟩ := m4
   rw [ha] at hb
   cases hb
   rw [hmiss] at hhit
   cases hhit)

theorem new_exampleButton :
    BasicButtonObject.new exampleLoader "b" 100 100 "nnnn" "hhhh" "pppp" = .ok exampleButton := by
  rfl

/-- C7, witness of the amended statement at the example button, a left button
press and the pointer at (110, 110). -/
theorem dispatch_fires_at_most_two_witness :
    exampleButton.callbacks = [EventCallback.mouseHovered, EventCallback.mouseUnhovered,
      EventCallback.buttonReleased, EventCallback.buttonPressed] ∧
    (((exampleButton.dispatch { type := SDL_MOUSEBUTTONDOWN, button := SDL_BUTTON_LEFT }
          110 110).invoked.length ≤ 1 ∨
      (exampleButton.state_manager.activeState = ButtonState.Normal ∧
        ((exampleButton.dispatch { type := SDL_MOUSEBUTTONDOWN, button := SDL_BUTTON_LEFT }
            110 110).invoked = [Hook.onMouseHovered, Hook.onMouseUnhovered] ∨
          (exampleButton.dispatch { type := SDL_MOUSEBUTTONDOWN, button := SDL_BUTTON_LEFT }
            110 110).invoked = [Hook.onMouseHovered, Hook.onButtonPressed]))) ∧
    (exampleButton.dispatch { type := SDL_MOUSEBUTTONDOWN, button := SDL_BUTTON_LEFT }
        110 110).executed.length ≤
      (exampleButton.dispatch { type := SDL_MOUSEBUTTONDOWN, button := SDL_BUTTON_LEFT }
        110 110).invoked.length) :=
  ⟨rfl, dispatch_fires_at_most_two exampleButton
    { type := SDL_MOUSEBUTTONDOWN, button := SDL_BUTTON_LEFT } 110 110 rfl⟩

/-- C7, counterexample: the button built by the constructor is in state
`Normal`; a left button press with the pointer at (110, 110), strictly inside
its rectangle, makes one dispatch enter two hooks, hover-in and then press,
and carry out two transitions, `Normal` to `Hovered` and `Hovered` to
`Pressed`. -/
theorem dispatch_fires_two_guards :
    BasicButtonObject.new exampleLoader "b" 100 100 "nnnn" "hhhh" "pppp" = .ok exampleButton ∧
    exampleButton.state_manager.activeState = ButtonState.Normal ∧
    (exampleButton.dispatch { type := SDL_MOUSEBUTTONDOWN, button := SDL_BUTTON_LEFT }
        110 110).invoked = [Hook.onMouseHovered, Hook.onButtonPressed] ∧
    (exampleButton.dispatch { type := SDL_MOUSEBUTTONDOWN, button := SDL_BUTTON_LEFT }
        110 110).executed =
      [(ButtonState.Normal, ButtonState.Hovered), (ButtonState.Hovered, ButtonState.Pressed)] ∧
    ¬ (exampleButton.dispatch { type := SDL_MOUSEBUTTONDOWN, button := SDL_BUTTON_LEFT }
        110 110).invoked.length ≤ 1 ∧
    ¬ (exampleButton.dispatch { type := SDL_MOUSEBUTTONDOWN, button := SDL_BUTTON_LEFT }
        110 110).executed.length ≤ 1 :=
  ⟨new_exampleButton, by decide, by decide, by decide, by decide, by decide⟩

/-! ## The constructor -/

theorem new_eq_ok (loader : String → Option (Int × Int)) (name : String) (x y : Int)
    (path_normal path_hovered path_pressed : String) (b : BasicButtonObject)
    (h : BasicButtonObject.new loader name x y path_normal path_hovered path_pressed = .ok b) :
    b.callbacks = [EventCallback.mouseHovered, EventCallback.mouseUnhovered,
      EventCallback.buttonReleased, EventCallback.buttonPressed] ∧
    b.state_manager.transitions =
      {(ButtonState.Normal, ButtonState.Hovered), (ButtonState.Hovered, ButtonState.Normal),
        (ButtonState.Hovered, ButtonState.Pressed), (ButtonState.Pressed, ButtonState.Hovered)} ∧
    b.state_manager.active_state = ButtonState.Normal ∧
    ∃ tex, b.state_manager.objects ButtonState.Normal = some tex ∧
      b.render_rect = tex.renderRect := by
  unfold BasicButtonObject.new at h
  simp only [StatefulObjectManager.setInitStatefulObject, ImageTexture.new,
    StatefulObjectManager.bindStatefulObject, StatefulObjectManager.setStateTransition,
    StatefulObjectManager.activeStateObject, bind, Except.bind, pure, Except.pure] at h
  cases hn : loader path_normal with
  | none => simp [hn] at h
  | some wh =>
    obtain ⟨wn, hn'⟩ := wh
    simp only [hn] at h
    cases hlh : loader path_hovered <;> cases hlp : loader path_pressed <;>
      cases he : path_hovered.isEmpty <;> cases hp : path_pressed.isEmpty <;>
      simp [hlh, hlp, he, hp, throw, throwThe, MonadExceptOf.throw] at h <;>
      subst h <;>
      simp [BasicButtonObject.setEventCallback, BasicButtonObject.setHeight,
        BasicButtonObject.setWidth, BasicButtonObject.setPoint] <;>
      decide

/-- The constructor returns an object whenever asset resolution succeeds for
the normal texture and for each of the two optional textures that is given. -/
theorem new_succeeds (loader : String → Option (Int × Int)) (name : String) (x y : Int)
    (path_normal path_hovered path_pressed : String)
    (hn : (loader path_normal).isSome = true)
    (hh : path_hovered.isEmpty = true ∨ (loader path_hovered).isSome = true)
    (hp : path_pressed.isEmpty = true ∨ (loader path_pressed).isSome = true) :
    ∃ b, BasicButtonObject.new loader name x y path_normal path_hovered path_pressed = .ok b := by
  unfold BasicButtonObject.new
  simp only [StatefulObjectManager.setInitStatefulObject, ImageTexture.new,
    StatefulObjectManager.bindStatefulObject, StatefulObjectManager.setStateTransition,
    StatefulObjectManager.activeStateObject, bind, Except.bind, pure, Except.pure]
  cases hln : loader path_normal with
  | none => simp [hln] at hn
  | some wh =>
    cases hlh : loader path_hovered <;> cases hlp : loader path_pressed <;>
      cases he : path_hovered.isEmpty <;> cases hpe : path_pressed.isEmpty <;>
      simp_all

/-- C8: the manager of a button that the constructor has built declares
exactly the four edges `Normal → Hovered`, `Hovered → Normal`,
`Hovered → Pressed` and `Pressed → Hovered`; neither `Normal → Pressed` nor
`Pressed → Normal` is declared, and the active state is `Normal`. -/
theorem new_declares_four_edges (loader : String → Option (Int × Int)) (name : String)
    (x y : Int) (path_normal path_hovered path_pressed : String) (b : BasicButtonObject)
    (h : BasicButtonObject.new loader name x y path_normal path_hovered path_pressed = .ok b) :
    b.state_manager.transitions =
      {(ButtonState.Normal, ButtonState.Hovered), (ButtonState.Hovered, ButtonState.Normal),
        (ButtonState.Hovered, ButtonState.Pressed), (ButtonState.Pressed, ButtonState.Hovered)} ∧
    (ButtonState.Normal, ButtonState.Pressed) ∉ b.state_manager.transitions ∧
    (ButtonState.Pressed, ButtonState.Normal) ∉ b.state_manager.transitions ∧
    b.state_manager.activeState = ButtonState.Normal := by
  obtain ⟨_, hedges, hactive, _⟩ :=
    new_eq_ok loader name x y path_normal path_hovered path_pressed b h
  refine ⟨hedges, ?_, ?_, hactive⟩
  · rw [hedges]
    decide
  · rw [hedges]
    decide

/-- C8, witness: the constructor call that builds the example button. -/
theorem new_declares_four_edges_witness :
    BasicButtonObject.new exampleLoader "b" 100 100 "nnnn" "hhhh" "pppp" = .ok exampleButton ∧
    (exampleButton.state_manager.transitions =
      {(ButtonState.Normal, ButtonState.Hovered), (ButtonState.Hovered, ButtonState.Normal),
        (ButtonState.Hovered, ButtonState.Pressed), (ButtonState.Pressed, ButtonState.Hovered)} ∧
    (ButtonState.Normal, ButtonState.Pressed) ∉ exampleButton.state_manager.transitions ∧
    (ButtonState.Pressed, ButtonState.Normal) ∉ exampleButton.state_manager.transitions ∧
    exampleButton.state_manager.activeState = ButtonState.Normal) :=
  ⟨new_exampleButton,
    new_declares_four_edges exampleLoader "b" 100 100 "nnnn" "hhhh" "pppp" exampleButton
      new_exampleButton⟩

/-! ## What every callback preserves -/

theorem transitionAndResize_frame (self : BasicButtonObject) (hook : Hook)
    (target : ButtonState) :
    (self.transitionAndResize hook target).self.callbacks = self.callbacks ∧
    (self.transitionAndResize hook target).self.state_manager.objects =
      self.state_manager.objects ∧
    (self.transitionAndResize hook target).self.state_manager.transitions =
      self.state_manager.transitions ∧
    ∀ p ∈ (self.transitionAndResize hook target).executed, p ∈ self.state_manager.transitions := by
  rcases transitionAndResize_cases self hook target with
    ⟨h1, h2, _⟩ | ⟨tex, _, hedge, h1, h2, _⟩
  · rw [h1, h2]
    exact ⟨rfl, rfl, rfl, by simp⟩
  · rw [h1, h2]
    refine ⟨rfl, rfl, rfl, ?_⟩
    intro p hp
    rw [List.mem_singleton] at hp
    rw [hp]
    exact hedge

theorem transitionAndResize_mirror (self : BasicButtonObject) (hook : Hook)
    (target : ButtonState)
    (hm : ∃ tex, self.state_manager.activeStateObject = some tex ∧
      self.render_rect.w = tex.renderRect.w ∧ self.render_rect.h = tex.renderRect.h) :
    ∃ tex, (self.transitionAndResize hook target).self.state_manager.activeStateObject =
        some tex ∧
      (self.transitionAndResize hook target).self.render_rect.w = tex.renderRect.w ∧
      (self.transitionAndResize hook target).self.render_rect.h = tex.renderRect.h := by
  rcases transitionAndResize_cases self hook target with
    ⟨h1, _, _⟩ | ⟨tex, htex, _, h1, _, _⟩
  · rw [h1]
    exact hm
  · rw [h1]
    exact ⟨tex, htex, rfl, rfl⟩

theorem run_idle_or_hook (cb : EventCallback) (self : BasicButtonObject) (ev : SDL_Event)
    (mouse_x mouse_y : Int) :
    ((cb.run self ev mouse_x mouse_y).self = self ∧
        (cb.run self ev mouse_x mouse_y).executed = []) ∨
      ∃ hook target, cb.run self ev mouse_x mouse_y = self.transitionAndResize hook target := by
  cases cb
  · rcases idle_or_hook_onMouseHovered self ev mouse_x mouse_y with ⟨_, h2, h3⟩ | h
    · exact Or.inl ⟨h2, h3⟩
    · exact Or.inr ⟨_, _, h⟩
  · rcases idle_or_hook_onMouseUnhovered self ev mouse_x mouse_y with ⟨_, h2, h3⟩ | h
    · exact Or.inl ⟨h2, h3⟩
    · exact Or.inr ⟨_, _, h⟩
  · rcases idle_or_hook_onButtonReleased self ev mouse_x mouse_y with ⟨_, h2, h3⟩ | h
    · exact Or.inl ⟨h2, h3⟩
    · exact Or.inr ⟨_, _, h⟩
  · rcases idle_or_hook_onButtonPressed self ev mouse_x mouse_y with ⟨_, h2, h3⟩ | h
    · exact Or.inl ⟨h2, h3⟩
    · exact Or.inr ⟨_, _, h⟩

theorem run_frame (cb : EventCallback) (self : BasicButtonObject) (ev : SDL_Event)
    (mouse_x mouse_y : Int) :
    (cb.run self ev mouse_x mouse_y).self.callbacks = self.callbacks ∧
    (cb.run self ev mouse_x mouse_y).self.state_manager.objects = self.state_manager.objects ∧
    (cb.run self ev mouse_x mouse_y).self.state_manager.transitions =
      self.state_manager.transitions ∧
    ∀ p ∈ (cb.run self ev mouse_x mouse_y).executed, p ∈ self.state_manager.transitions := by
  rcases run_idle_or_hook cb self ev mouse_x mouse_y with ⟨h1, h2⟩ | ⟨hook, target, h⟩
  · rw [h1, h2]
    exact ⟨rfl, rfl, rfl, by simp⟩
  · rw [h]
    exact transitionAndResize_frame self hook target

theorem run_mirror (cb : EventCallback) (self : BasicButtonObject) (ev : SDL_Event)
    (mouse_x mouse_y : Int)
    (hm : ∃ tex, self.state_manager.activeStateObject = some tex ∧
      self.render_rect.w = tex.renderRect.w ∧ self.render_rect.h = tex.renderRect.h) :
    ∃ tex, (cb.run self ev mouse_x mouse_y).self.state_manager.activeStateObject = some tex ∧
      (cb.run self ev mouse_x mouse_y).self.render_rect.w = tex.renderRect.w ∧
      (cb.run self ev mouse_x mouse_y).self.render_rect.h = tex.renderRect.h := by
  rcases run_idle_or_hook cb self ev mouse_x mouse_y with ⟨h1, _⟩ | ⟨hook, target, h⟩
  · rw [h1]
    exact hm
  · rw [h]
    exact transitionAndResize_mirror self hook target hm

theorem foldl_run_frame (ev : SDL_Event) (mouse_x mouse_y : Int) (l : List EventCallback)
    (acc : Outcome) :
    (l.foldl (fun acc cb => acc.andThen (cb.run acc.self ev mouse_x mouse_y)) acc).self.callbacks =
      acc.self.callbacks ∧
    (l.foldl (fun acc cb => acc.andThen (cb.run acc.self ev mouse_x mouse_y))
      acc).self.state_manager.objects = acc.self.state_manager.objects ∧
    (l.foldl (fun acc cb => acc.andThen (cb.run acc.self ev mouse_x mouse_y))
      acc).self.state_manager.transitions = acc.self.state_manager.transitions ∧
    ∀ p ∈ (l.foldl (fun acc cb => acc.andThen (cb.run acc.self ev mouse_x mouse_y)) acc).executed,
      p ∈ acc.executed ∨ p ∈ acc.self.state_manager.transitions := by
  induction l generalizing acc with
  | nil => exact ⟨rfl, rfl, rfl, fun p hp => Or.inl hp⟩
  | cons cb rest ih =>
    obtain ⟨h1, h2, h3, h4⟩ := ih (acc.andThen (cb.run acc.self ev mouse_x mouse_y))
    obtain ⟨f1, f2, f3, f4⟩ := run_frame cb acc.self ev mouse_x mouse_y
    rw [List.foldl_cons, h1, h2, h3]
    refine ⟨f1, f2, f3, ?_⟩
    intro p hp
    rcases h4 p hp with hp' | hp'
    · simp only [Outcome.andThen, List.mem_append] at hp'
      rcases hp' with hp' | hp'
      · exact Or.inl hp'
      · exact Or.inr (f4 p hp')
    · simp only [Outcome.andThen] at hp'
      rw [f3] at hp'
      exact Or.inr hp'

theorem foldl_run_mirror (ev : SDL_Event) (mouse_x mouse_y : Int) (l : List EventCallback)
    (acc : Outcome)
    (hm : ∃ tex, acc.self.state_manager.activeStateObject = some tex ∧
      acc.self.render_rect.w = tex.renderRect.w ∧ acc.self.render_rect.h = tex.renderRect.h) :
    ∃ tex, (l.foldl (fun acc cb => acc.andThen (cb.run acc.self ev mouse_x mouse_y))
        acc).self.state_manager.activeStateObject = some tex ∧
      (l.foldl (fun acc cb => acc.andThen (cb.run acc.self ev mouse_x mouse_y))
        acc).self.render_rect.w = tex.renderRect.w ∧
      (l.foldl (fun acc cb => acc.andThen (cb.run acc.self ev mouse_x mouse_y))
        acc).self.render_rect.h = tex.renderRect.h := by
  induction l generalizing acc with
  | nil => exact hm
  | cons cb rest ih =>
    rw [List.foldl_cons]
    exact ih _ (run_mirror cb acc.self ev mouse_x mouse_y hm)

theorem dispatch_frame (self : BasicButtonObject) (ev : SDL_Event) (mouse_x mouse_y : Int) :
    (self.dispatch ev mouse_x mouse_y).self.callbacks = self.callbacks ∧
    (self.dispatch ev mouse_x mouse_y).self.state_manager.objects = self.state_manager.objects ∧
    (self.dispatch ev mouse_x mouse_y).self.state_manager.transitions =
      self.state_manager.transitions ∧
    ∀ p ∈ (self.dispatch ev mouse_x mouse_y).executed, p ∈ self.state_manager.transitions := by
  rw [dispatch_toOutcome]
  obtain ⟨h1, h2, h3, h4⟩ :=
    foldl_run_frame ev mouse_x mouse_y self.callbacks (Outcome.skip self)
  refine ⟨h1, h2, h3, ?_⟩
  intro p hp
  rcases h4 p hp with hp' | hp'
  · simp [Outcome.skip] at hp'
  · exact hp'

theorem dispatch_mirror (self : BasicButtonObject) (ev : SDL_Event) (mouse_x mouse_y : Int)
    (hm : ∃ tex, self.state_manager.activeStateObject = some tex ∧
      self.render_rect.w = tex.renderRect.w ∧ self.render_rect.h = tex.renderRect.h) :
    ∃ tex, (self.dispatch ev mouse_x mouse_y).self.state_manager.activeStateObject = some tex ∧
      (self.dispatch ev mouse_x mouse_y).self.render_rect.w = tex.renderRect.w ∧
      (self.dispatch ev mouse_x mouse_y).self.render_rect.h = tex.renderRect.h := by
  rw [dispatch_toOutcome]
  exact foldl_run_mirror ev mouse_x mouse_y self.callbacks (Outcome.skip self) hm

theorem runEvents_frame (evs : List (SDL_Event × Int × Int)) (self : BasicButtonObject) :
    (self.runEvents evs).callbacks = self.callbacks ∧
    (self.runEvents evs).state_manager.objects = self.state_manager.objects ∧
    (self.runEvents evs).state_manager.transitions = self.state_manager.transitions := by
  induction evs generalizing self with
  | nil => exact ⟨rfl, rfl, rfl⟩
  | cons e rest ih =>
    obtain ⟨h1, h2, h3⟩ := ih (self.dispatch e.1 e.2.1 e.2.2).self
    obtain ⟨f1, f2, f3, _⟩ := dispatch_frame self e.1 e.2.1 e.2.2
    unfold BasicButtonObject.runEvents at h1 h2 h3 ⊢
    rw [List.foldl_cons, h1, h2, h3]
    exact ⟨f1, f2, f3⟩

theorem runEvents_mirror (evs : List (SDL_Event × Int × Int)) (self : BasicButtonObject)
    (hm : ∃ tex, self.state_manager.activeStateObject = some tex ∧
      self.render_rect.w = tex.renderRect.w ∧ self.render_rect.h = tex.renderRect.h) :
    ∃ tex, (self.runEvents evs).state_manager.activeStateObject = some tex ∧
      (self.runEvents evs).render_rect.w = tex.renderRect.w ∧
      (self.runEvents evs).render_rect.h = tex.renderRect.h := by
  induction evs generalizing self with
  | nil => exact hm
  | cons e rest ih =>
    unfold BasicButtonObject.runEvents at ih ⊢
    rw [List.foldl_cons]
    exact ih _ (dispatch_mirror self e.1 e.2.1 e.2.2 hm)

theorem dispatch_executed_path (self : BasicButtonObject) (ev : SDL_Event)
    (mouse_x mouse_y : Int)
    (hcb : self.callbacks = [EventCallback.mouseHovered, EventCallback.mouseUnhovered,
      EventCallback.buttonReleased, EventCallback.buttonPressed]) :
    self.state_manager.activeState ::
        (self.dispatch ev mouse_x mouse_y).executed.map Prod.snd =
      (self.dispatch ev mouse_x mouse_y).executed.map Prod.fst ++
        [(self.dispatch ev mouse_x mouse_y).self.state_manager.activeState] := by
  rw [dispatch_registered self ev mouse_x mouse_y hcb]
  have h1 := step_onMouseHovered self ev mouse_x mouse_y
  generalize self._onMouseHovered ev mouse_x mouse_y = o1 at h1 ⊢
  have h2 := step_onMouseUnhovered o1.self ev mouse_x mouse_y
  generalize o1.self._onMouseUnhovered ev mouse_x mouse_y = o2 at h2 ⊢
  have h3 := step_onButtonReleased o2.self ev mouse_x mouse_y
  generalize o2.self._onButtonReleased ev mouse_x mouse_y = o3 at h3 ⊢
  have h4 := step_onButtonPressed o3.self ev mouse_x mouse_y
  generalize o3.self._onButtonPressed ev mouse_x mouse_y = o4 at h4 ⊢
  simp only [Outcome.andThen, Outcome.skip, List.nil_append]
  rcases h1 with ⟨i1, s1, e1⟩ | ⟨i1, r1, (⟨s1, e1⟩ | ⟨t1, e1⟩)⟩ <;>
  rcases h2 with ⟨i2, s2, e2⟩ | ⟨i2, r2, m2, (⟨s2, e2⟩ | ⟨t2, e2⟩)⟩ <;>
  rcases h3 with ⟨i3, s3, e3⟩ | ⟨i3, r3, u3, (⟨s3, e3⟩ | ⟨t3, e3⟩)⟩ <;>
  rcases h4 with ⟨i4, s4, e4⟩ | ⟨i4, r4, d4, m4, (⟨s4, e4⟩ | ⟨t4, e4⟩)⟩ <;>
  simp_all

/-! ## Sequences of events -/

/-- C9: on a button built by the constructor, after any sequence of events,
the transitions that the dispatch of a further event carries out account for
every change of the active state (they chain from the state before the event
to the state after it), each of them is a declared edge, so one that makes
`Pressed` active starts from `Hovered` and none goes from `Normal` to
`Pressed` or from `Pressed` to `Normal`; and a request for `Pressed` made to
the manager while `Normal` is active is rejected. -/
theorem pressed_only_from_hovered (loader : String → Option (Int × Int)) (name : String)
    (x y : Int) (path_normal path_hovered path_pressed : String) (b : BasicButtonObject)
    (h : BasicButtonObject.new loader name x y path_normal path_hovered path_pressed = .ok b)
    (evs : List (SDL_Event × Int × Int)) (ev : SDL_Event) (mouse_x mouse_y : Int) :
    ((b.runEvents evs).state_manager.activeState ::
        ((b.runEvents evs).dispatch ev mouse_x mouse_y).executed.map Prod.snd =
      ((b.runEvents evs).dispatch ev mouse_x mouse_y).executed.map Prod.fst ++
        [((b.runEvents evs).dispatch ev mouse_x mouse_y).self.state_manager.activeState]) ∧
    (∀ p ∈ ((b.runEvents evs).dispatch ev mouse_x mouse_y).executed,
      (p.2 = ButtonState.Pressed → p.1 = ButtonState.Hovered) ∧
      p ≠ (ButtonState.Normal, ButtonState.Pressed) ∧
      p ≠ (ButtonState.Pressed, ButtonState.Normal)) ∧
    ((b.runEvents evs).state_manager.activeState = ButtonState.Normal →
      ∃ e, (b.runEvents evs).state_manager.stateTransition ButtonState.Pressed = .error e) := by
  obtain ⟨hcb, hedges, _, _⟩ :=
    new_eq_ok loader name x y path_normal path_hovered path_pressed b h
  obtain ⟨rcb, _, redges⟩ := runEvents_frame evs b
  rw [hcb] at rcb
  rw [hedges] at redges
  refine ⟨dispatch_executed_path _ ev mouse_x mouse_y rcb, ?_, ?_⟩
  · intro p hp
    have hmem := (dispatch_frame (b.runEvents evs) ev mouse_x mouse_y).2.2.2 p hp
    rw [redges] at hmem
    revert hmem
    obtain ⟨p1, p2⟩ := p
    cases p1 <;> cases p2 <;> decide
  · intro hnormal
    unfold StatefulObjectManager.stateTransition
    unfold StatefulObjectManager.activeState at hnormal
    rw [hnormal, redges]
    split
    · exact ⟨_, rfl⟩
    · rw [if_neg (by decide)]
      exact ⟨_, rfl⟩

/-- C9, witness: the example button after the pointer has moved to (110, 110)
and away to (500, 500), which leaves it in state `Normal`, and then a left
button press at (110, 110). -/
theorem pressed_only_from_hovered_witness :
    BasicButtonObject.new exampleLoader "b" 100 100 "nnnn" "hhhh" "pppp" = .ok exampleButton ∧
    ((exampleButton.runEvents 
      [({ type := 0x400, button := 0 }, 110, 110), ({ type := 0x400, button := 0 }, 500, 500)]).state_manager.activeState ::
        ((exampleButton.runEvents 
      [({ type := 0x400, button := 0 }, 110, 110), ({ type := 0x400, button := 0 }, 500, 500)]).dispatch
          { type := SDL_MOUSEBUTTONDOWN, button := SDL_BUTTON_LEFT } 110 110).executed.map
            Prod.snd =
      ((exampleButton.runEvents 
      [({ type := 0x400, button := 0 }, 110, 110), ({ type := 0x400, button := 0 }, 500, 500)]).dispatch
          { type := SDL_MOUSEBUTTONDOWN, button := SDL_BUTTON_LEFT } 110 110).executed.map
            Prod.fst ++
        [((exampleButton.runEvents 
      [({ type := 0x400, button := 0 }, 110, 110), ({ type := 0x400, button := 0 }, 500, 500)]).dispatch
          { type := SDL_MOUSEBUTTONDOWN, button := SDL_BUTTON_LEFT }
          110 110).self.state_manager.activeState]) ∧
    (∀ p ∈ ((exampleButton.runEvents 
      [({ type := 0x400, button := 0 }, 110, 110), ({ type := 0x400, button := 0 }, 500, 500)]).dispatch
          { type := SDL_MOUSEBUTTONDOWN, button := SDL_BUTTON_LEFT } 110 110).executed,
      (p.2 = ButtonState.Pressed → p.1 = ButtonState.Hovered) ∧
      p ≠ (ButtonState.Normal, ButtonState.Pressed) ∧
      p ≠ (ButtonState.Pressed, ButtonState.Normal)) ∧
    (exampleButton.runEvents 
      [({ type := 0x400, button := 0 }, 110, 110), ({ type := 0x400, button := 0 }, 500, 500)]).state_manager.activeState = ButtonState.Normal ∧
    ∃ e, (exampleButton.runEvents 
      [({ type := 0x400, button := 0 }, 110, 110), ({ type := 0x400, button := 0 }, 500, 500)]).state_manager.stateTransition
      ButtonState.Pressed = .error e :=
  have t := pressed_only_from_hovered exampleLoader "b" 100 100 "nnnn" "hhhh" "pppp"
    exampleButton new_exampleButton 
      [({ type := 0x400, button := 0 }, 110, 110), ({ type := 0x400, button := 0 }, 500, 500)]
    { type := SDL_MOUSEBUTTONDOWN, button := SDL_BUTTON_LEFT } 110 110
  ⟨new_exampleButton, t.1, t.2.1, by decide, t.2.2 (by decide)⟩

/-- C10: on a button built by the constructor, immediately after construction
(`evs` empty) and after every sequence of events, the active state has a
resource and the width and height of the widget are the `w` and `h` of the
rectangle of that resource; the same holds of the object that each of the
four hooks leaves when it is run then. -/
theorem geometry_mirrors_active_resource (loader : String → Option (Int × Int))
    (name : String) (x y : Int) (path_normal path_hovered path_pressed : String)
    (b : BasicButtonObject)
    (h : BasicButtonObject.new loader name x y path_normal path_hovered path_pressed = .ok b)
    (evs : List (SDL_Event × Int × Int)) :
    (∃ tex, (b.runEvents evs).state_manager.activeStateObject = some tex ∧
      (b.runEvents evs).render_rect.w = tex.renderRect.w ∧
      (b.runEvents evs).render_rect.h = tex.renderRect.h) ∧
    (∃ tex, (b.runEvents evs).onButtonPressed.self.state_manager.activeStateObject = some tex ∧
      (b.runEvents evs).onButtonPressed.self.render_rect.w = tex.renderRect.w ∧
      (b.runEvents evs).onButtonPressed.self.render_rect.h = tex.renderRect.h) ∧
    (∃ tex, (b.runEvents evs).onButtonReleased.self.state_manager.activeStateObject = some tex ∧
      (b.runEvents evs).onButtonReleased.self.render_rect.w = tex.renderRect.w ∧
      (b.runEvents evs).onButtonReleased.self.render_rect.h = tex.renderRect.h) ∧
    (∃ tex, (b.runEvents evs).onMouseHovered.self.state_manager.activeStateObject = some tex ∧
      (b.runEvents evs).onMouseHovered.self.render_rect.w = tex.renderRect.w ∧
      (b.runEvents evs).onMouseHovered.self.render_rect.h = tex.renderRect.h) ∧
    (∃ tex, (b.runEvents evs).onMouseUnhovered.self.state_manager.activeStateObject = some tex ∧
      (b.runEvents evs).onMouseUnhovered.self.render_rect.w = tex.renderRect.w ∧
      (b.runEvents evs).onMouseUnhovered.self.render_rect.h = tex.renderRect.h) := by
  obtain ⟨_, _, hactive, tex, htex, hrect⟩ :=
    new_eq_ok loader name x y path_normal path_hovered path_pressed b h
  have hb : ∃ tex, b.state_manager.activeStateObject = some tex ∧
      b.render_rect.w = tex.renderRect.w ∧ b.render_rect.h = tex.renderRect.h := by
    refine ⟨tex, ?_, by rw [hrect], by rw [hrect]⟩
    unfold StatefulObjectManager.activeStateObject
    rw [hactive]
    exact htex
  have hrun := runEvents_mirror evs b hb
  exact ⟨hrun, transitionAndResize_mirror _ _ _ hrun, transitionAndResize_mirror _ _ _ hrun,
    transitionAndResize_mirror _ _ _ hrun, transitionAndResize_mirror _ _ _ hrun⟩

/-- C10, witness: the example button after a pointer move to (110, 110) and a
left button press there. -/
theorem geometry_mirrors_active_resource_witness :
    BasicButtonObject.new exampleLoader "b" 100 100 "nnnn" "hhhh" "pppp" = .ok exampleButton ∧
    (exampleButton.runEvents
      [({ type := 0x400, button := 0 }, 110, 110),
        ({ type := SDL_MOUSEBUTTONDOWN, button := SDL_BUTTON_LEFT }, 110, 110)]).state_manager.activeState = ButtonState.Pressed ∧
    ∃ tex, (exampleButton.runEvents
      [({ type := 0x400, button := 0 }, 110, 110),
        ({ type := SDL_MOUSEBUTTONDOWN, button := SDL_BUTTON_LEFT }, 110, 110)]).state_manager.activeStateObject = some tex ∧
      (exampleButton.runEvents
      [({ type := 0x400, button := 0 }, 110, 110),
        ({ type := SDL_MOUSEBUTTONDOWN, button := SDL_BUTTON_LEFT }, 110, 110)]).render_rect.w = tex.renderRect.w ∧
      (exampleButton.runEvents
      [({ type := 0x400, button := 0 }, 110, 110),
        ({ type := SDL_MOUSEBUTTONDOWN, button := SDL_BUTTON_LEFT }, 110, 110)]).render_rect.h = tex.renderRect.h :=
  ⟨new_exampleButton, by decide,
    (geometry_mirrors_active_resource exampleLoader "b" 100 100 "nnnn" "hhhh" "pppp"
      exampleButton new_exampleButton
      [({ type := 0x400, button := 0 }, 110, 110),
        ({ type := SDL_MOUSEBUTTONDOWN, button := SDL_BUTTON_LEFT }, 110, 110)]).1⟩

/-! ## More example buttons -/

theorem new_normalOnlyButton :
    BasicButtonObject.new exampleLoader "n" 100 100 "nnnn" "" "" = .ok normalOnlyButton := by
  rfl

/-! ## Evaluating the hooks and the callbacks -/

theorem transitionAndResize_illegal (self : BasicButtonObject) (hook : Hook)
    (target : ButtonState) (tex : ImageTexture)
    (hobj : self.state_manager.objects target = some tex)
    (hedge : (self.state_manager.active_state, target) ∉ self.state_manager.transitions) :
    self.transitionAndResize hook target =
      { self := self, invoked := [hook], executed := [],
        raised := [TruffleError.IllegalTransitionError] } := by
  unfold BasicButtonObject.transitionAndResize StatefulObjectManager.stateTransition
  simp [hobj, hedge]

theorem onMouseHovered_of_active (self : BasicButtonObject) (ev : SDL_Event)
    (mouse_x mouse_y : Int) (tex : ImageTexture)
    (hobj : self.state_manager.activeStateObject = some tex) :
    self._onMouseHovered ev mouse_x mouse_y =
      if (isMouseHovered mouse_x mouse_y tex.renderRect &&
          self.state_manager.activeState == ButtonState.Normal) = true then
        self.onMouseHovered
      else Outcome.skip self := by
  unfold BasicButtonObject._onMouseHovered
  rw [hobj]

theorem onMouseUnhovered_of_active (self : BasicButtonObject) (ev : SDL_Event)
    (mouse_x mouse_y : Int) (tex : ImageTexture)
    (hobj : self.state_manager.activeStateObject = some tex) :
    self._onMouseUnhovered ev mouse_x mouse_y =
      if (isMouseUnhovered mouse_x mouse_y tex.renderRect &&
          self.state_manager.activeState == ButtonState.Hovered) = true then
        self.onMouseUnhovered
      else Outcome.skip self := by
  unfold BasicButtonObject._onMouseUnhovered
  rw [hobj]

theorem onButtonReleased_of_active (self : BasicButtonObject) (ev : SDL_Event)
    (mouse_x mouse_y : Int) (tex : ImageTexture)
    (hobj : self.state_manager.activeStateObject = some tex) :
    self._onButtonReleased ev mouse_x mouse_y =
      if (isReleased ev mouse_x mouse_y tex.renderRect &&
          self.state_manager.activeState == ButtonState.Pressed) = true then
        self.onButtonReleased
      else Outcome.skip self := by
  unfold BasicButtonObject._onButtonReleased
  rw [hobj]

theorem onButtonPressed_of_active (self : BasicButtonObject) (ev : SDL_Event)
    (mouse_x mouse_y : Int) (tex : ImageTexture)
    (hobj : self.state_manager.activeStateObject = some tex) :
    self._onButtonPressed ev mouse_x mouse_y =
      if (isPressed ev mouse_x mouse_y tex.renderRect &&
          self.state_manager.activeState == ButtonState.Hovered) = true then
        self.onButtonPressed
      else Outcome.skip self := by
  unfold BasicButtonObject._onButtonPressed
  rw [hobj]

/-- A callback whose required state is not the active one does nothing to the
object and enters no hook. -/
theorem onMouseHovered_idle (self : BasicButtonObject) (ev : SDL_Event) (mouse_x mouse_y : Int)
    (hst : self.state_manager.activeState ≠ ButtonState.Normal) :
    (self._onMouseHovered ev mouse_x mouse_y).invoked = [] ∧
    (self._onMouseHovered ev mouse_x mouse_y).self = self ∧
    (self._onMouseHovered ev mouse_x mouse_y).executed = [] := by
  rcases step_onMouseHovered self ev mouse_x mouse_y with h | ⟨_, h, _⟩
  · exact h
  · exact absurd h hst

theorem onMouseUnhovered_idle (self : BasicButtonObject) (ev : SDL_Event)
    (mouse_x mouse_y : Int)
    (hst : self.state_manager.activeState ≠ ButtonState.Hovered) :
    (self._onMouseUnhovered ev mouse_x mouse_y).invoked = [] ∧
    (self._onMouseUnhovered ev mouse_x mouse_y).self = self ∧
    (self._onMouseUnhovered ev mouse_x mouse_y).executed = [] := by
  rcases step_onMouseUnhovered self ev mouse_x mouse_y with h | ⟨_, h, _⟩
  · exact h
  · exact absurd h hst

theorem onButtonPressed_idle (self : BasicButtonObject) (ev : SDL_Event)
    (mouse_x mouse_y : Int)
    (hst : self.state_manager.activeState ≠ ButtonState.Hovered) :
    (self._onButtonPressed ev mouse_x mouse_y).invoked = [] ∧
    (self._onButtonPressed ev mouse_x mouse_y).self = self ∧
    (self._onButtonPressed ev mouse_x mouse_y).executed = [] := by
  rcases step_onButtonPressed self ev mouse_x mouse_y with h | ⟨_, h, _⟩
  · exact h
  · exact absurd h hst

/-! ## Press and release -/

theorem onButtonReleased_idle_of_not_released (self : BasicButtonObject) (ev : SDL_Event)
    (mouse_x mouse_y : Int)
    (hrel : ∀ tex, self.state_manager.activeStateObject = some tex →
      ¬(ev.type = SDL_MOUSEBUTTONUP ∧ ev.button = SDL_BUTTON_LEFT ∧
        isMouseHovered mouse_x mouse_y tex.renderRect = true)) :
    (self._onButtonReleased ev mouse_x mouse_y).invoked = [] ∧
    (self._onButtonReleased ev mouse_x mouse_y).self = self ∧
    (self._onButtonReleased ev mouse_x mouse_y).executed = [] := by
  unfold BasicButtonObject._onButtonReleased
  cases hobj : self.state_manager.activeStateObject with
  | none => exact ⟨rfl, rfl, rfl⟩
  | some tex =>
    have hfalse : isReleased ev mouse_x mouse_y tex.renderRect = false := by
      have := hrel tex hobj
      unfold isReleased
      split <;> rename_i hev
      · simp only [Bool.and_eq_true, beq_iff_eq] at hev
        cases hhit : isMouseHovered mouse_x mouse_y tex.renderRect
        · rfl
        · exact absurd ⟨hev.1, hev.2, hhit⟩ this
      · rfl
    simp only [hfalse, Bool.false_and]
    exact ⟨rfl, rfl, rfl⟩

theorem dispatch_idle_in_pressed (self : BasicButtonObject) (ev : SDL_Event) (mouse_x mouse_y : Int)
    (hcb : self.callbacks = [EventCallback.mouseHovered, EventCallback.mouseUnhovered,
      EventCallback.buttonReleased, EventCallback.buttonPressed])
    (hst : self.state_manager.activeState = ButtonState.Pressed)
    (hrel : ∀ tex, self.state_manager.activeStateObject = some tex →
      ¬(ev.type = SDL_MOUSEBUTTONUP ∧ ev.button = SDL_BUTTON_LEFT ∧
        isMouseHovered mouse_x mouse_y tex.renderRect = true)) :
    (self.dispatch ev mouse_x mouse_y).invoked = [] ∧
    (self.dispatch ev mouse_x mouse_y).executed = [] ∧
    (self.dispatch ev mouse_x mouse_y).self = self := by
  obtain ⟨i1, s1, x1⟩ := onMouseHovered_idle self ev mouse_x mouse_y (by rw [hst]; decide)
  obtain ⟨i2, s2, x2⟩ := onMouseUnhovered_idle self ev mouse_x mouse_y (by rw [hst]; decide)
  obtain ⟨i3, s3, x3⟩ := onButtonReleased_idle_of_not_released self ev mouse_x mouse_y hrel
  obtain ⟨i4, s4, x4⟩ := onButtonPressed_idle self ev mouse_x mouse_y (by rw [hst]; decide)
  rw [dispatch_registered self ev mouse_x mouse_y hcb]
  simp only [Outcome.andThen, Outcome.skip, s1, s2, s3, s4, i1, i2, i3, i4, x1, x2, x3, x4,
    List.append_nil, and_self]

/-- C13: in state `Pressed`, an event for which the release guard is false (it
is not a left button-up with the pointer strictly inside the active rectangle;
in particular any event that is not a button-up, wherever the pointer is)
enters no hook and leaves the whole object, so the active state and the width
and height, as it was. -/
theorem pressed_is_sticky (self : BasicButtonObject) (ev : SDL_Event) (mouse_x mouse_y : Int)
    (hcb : self.callbacks = [EventCallback.mouseHovered, EventCallback.mouseUnhovered,
      EventCallback.buttonReleased, EventCallback.buttonPressed])
    (hst : self.state_manager.activeState = ButtonState.Pressed)
    (hrel : ∀ tex, self.state_manager.activeStateObject = some tex →
      ¬(ev.type = SDL_MOUSEBUTTONUP ∧ ev.button = SDL_BUTTON_LEFT ∧
        isMouseHovered mouse_x mouse_y tex.renderRect = true)) :
    (self.dispatch ev mouse_x mouse_y).invoked = [] ∧
    (self.dispatch ev mouse_x mouse_y).executed = [] ∧
    (self.dispatch ev mouse_x mouse_y).self = self :=
  dispatch_idle_in_pressed self ev mouse_x mouse_y hcb hst hrel

/-- C13, witness: the example button, brought to `Pressed` by a pointer move
to (110, 110) and a left button press there, receives a pointer-motion event
with the pointer at (500, 500), outside its rectangle. -/
theorem pressed_is_sticky_witness :
    (exampleButton.runEvents
      [({ type := 0x400, button := 0 }, 110, 110),
        ({ type := SDL_MOUSEBUTTONDOWN, button := SDL_BUTTON_LEFT }, 110, 110)]).state_manager.activeState = ButtonState.Pressed ∧
    ((exampleButton.runEvents
      [({ type := 0x400, button := 0 }, 110, 110),
        ({ type := SDL_MOUSEBUTTONDOWN, button := SDL_BUTTON_LEFT }, 110, 110)]).dispatch { type := 0x400, button := 0 } 500 500).invoked = [] ∧
    ((exampleButton.runEvents
      [({ type := 0x400, button := 0 }, 110, 110),
        ({ type := SDL_MOUSEBUTTONDOWN, button := SDL_BUTTON_LEFT }, 110, 110)]).dispatch { type := 0x400, button := 0 } 500 500).executed = [] ∧
    ((exampleButton.runEvents
      [({ type := 0x400, button := 0 }, 110, 110),
        ({ type := SDL_MOUSEBUTTONDOWN, button := SDL_BUTTON_LEFT }, 110, 110)]).dispatch { type := 0x400, button := 0 } 500 500).self =
      exampleButton.runEvents
      [({ type := 0x400, button := 0 }, 110, 110),
        ({ type := SDL_MOUSEBUTTONDOWN, button := SDL_BUTTON_LEFT }, 110, 110)] :=
  ⟨by decide,
    pressed_is_sticky
      (exampleButton.runEvents
      [({ type := 0x400, button := 0 }, 110, 110),
        ({ type := SDL_MOUSEBUTTONDOWN, button := SDL_BUTTON_LEFT }, 110, 110)])
      { type := 0x400, button := 0 } 500 500 (by decide) (by decide)
      (fun _ _ hup => absurd hup.1 (by decide))⟩

/-- C14: `stateTransition(t)` succeeds exactly when the pair (active state, `t`)
is a declared edge and `t` has a bound resource, and then the manager it
yields is the old one with `t` as active state; in every other case it
reports an error (`UnboundStateError` for an unbound target, otherwise
`IllegalTransitionError`), and the manager the caller is left with has its
active state unchanged. -/
theorem stateTransition_edge_gating {Resource State : Type} [DecidableEq State]
    (m : StatefulObjectManager Resource State) (t : State) :
    (m.stateTransition t = .ok { m with active_state := t } ↔
      ((m.active_state, t) ∈ m.transitions ∧ (m.objects t).isSome = true)) ∧
    (∀ m', m.stateTransition t = .ok m' → m' = { m with active_state := t }) ∧
    ((∃ e, m.stateTransition t = .error e) ↔
      ¬((m.active_state, t) ∈ m.transitions ∧ (m.objects t).isSome = true)) ∧
    ((m.objects t).isSome = false → m.stateTransition t = .error .UnboundStateError) ∧
    ((m.objects t).isSome = true → (m.active_state, t) ∉ m.transitions →
      m.stateTransition t = .error .IllegalTransitionError) ∧
    (match m.stateTransition t with
      | .ok m' => m'
      | .error _ => m).active_state =
      (if (m.active_state, t) ∈ m.transitions ∧ (m.objects t).isSome = true then t
        else m.active_state) := by
  refine ⟨?_, ?_, ?_, ?_, ?_, ?_⟩
  · rw [stateTransition_eq_ok_iff]
    tauto
  · intro m' hm'
    exact ((stateTransition_eq_ok_iff _ _ _).1 hm').2.2
  · unfold StatefulObjectManager.stateTransition
    cases hobj : m.objects t with
    | none => simp
    | some r =>
      by_cases hedge : (m.active_state, t) ∈ m.transitions
      · simp [hedge]
      · simp [hedge]
  · intro hnone
    unfold StatefulObjectManager.stateTransition
    cases hobj : m.objects t with
    | none => simp
    | some r => simp [hobj] at hnone
  · intro hsome hedge
    unfold StatefulObjectManager.stateTransition
    cases hobj : m.objects t with
    | none => simp [hobj] at hsome
    | some r => simp [hedge]
  · unfold StatefulObjectManager.stateTransition
    cases hobj : m.objects t with
    | none => simp
    | some r =>
      by_cases hedge : (m.active_state, t) ∈ m.transitions
      · simp [hedge]
      · simp [hedge]

/-- C14, witness: the manager of the example button, asked for `Hovered`
(accepted) and for `Pressed` (rejected, no edge from `Normal`). -/
theorem stateTransition_edge_gating_witness :
    (exampleButton.state_manager.stateTransition ButtonState.Hovered =
      .ok { exampleButton.state_manager with active_state := ButtonState.Hovered }) ∧
    exampleButton.state_manager.stateTransition ButtonState.Pressed =
      .error .IllegalTransitionError :=
  ⟨(stateTransition_edge_gating exampleButton.state_manager ButtonState.Hovered).1.2
      ⟨by decide, by rfl⟩,
    (stateTransition_edge_gating exampleButton.state_manager ButtonState.Pressed).2.2.2.2.1
      (by rfl) (by decide)⟩

theorem iterate_setStateTransition {Resource State : Type} [DecidableEq State]
    (a b : State) (n : Nat) (m : StatefulObjectManager Resource State) :
    (Nat.iterate (fun m => m.setStateTransition a b) (n + 1) m).transitions =
      insert (a, b) m.transitions := by
  induction n generalizing m with
  | zero => rfl
  | succ k ih =>
    rw [Function.iterate_succ_apply, ih]
    simp [StatefulObjectManager.setStateTransition]

/-- C16: declaring the edge `(a, b)` `N` times, `N ≥ 1`, gives the same
manager, so the same transition set, as declaring it once; the pairs declared
afterwards are `(a, b)` and those declared before, so the reverse pair
`(b, a)` is declared afterwards only if it was before (or is `(a, b)` itself,
when `a = b`). -/
theorem setStateTransition_idempotent {Resource State : Type} [DecidableEq State]
    (m : StatefulObjectManager Resource State) (a b : State) (N : Nat) (hN : 1 ≤ N) :
    (Nat.iterate (fun m => m.setStateTransition a b) N m).transitions =
      (m.setStateTransition a b).transitions ∧
    (∀ p, p ∈ (m.setStateTransition a b).transitions ↔ p = (a, b) ∨ p ∈ m.transitions) ∧
    ((b, a) ∈ (m.setStateTransition a b).transitions → (b, a) ∈ m.transitions ∨ a = b) := by
  obtain ⟨n, rfl⟩ : ∃ n, N = n + 1 := ⟨N - 1, by omega⟩
  refine ⟨iterate_setStateTransition a b n m, ?_, ?_⟩
  · intro p
    simp [StatefulObjectManager.setStateTransition]
  · intro hmem
    simp only [StatefulObjectManager.setStateTransition, Finset.mem_insert, Prod.mk.injEq] at hmem
    rcases hmem with ⟨h1, _⟩ | h
    · exact Or.inr h1.symm
    · exact Or.inl h

/-- C16, witness: the edge `Normal → Pressed` declared three times on the
manager of the example button; `Pressed → Normal` is not declared afterwards. -/
theorem setStateTransition_idempotent_witness :
    1 ≤ 3 ∧
    (Nat.iterate (fun m => m.setStateTransition ButtonState.Normal ButtonState.Pressed) 3
        exampleButton.state_manager).transitions =
      (exampleButton.state_manager.setStateTransition ButtonState.Normal
        ButtonState.Pressed).transitions ∧
    (ButtonState.Pressed, ButtonState.Normal) ∉
      (exampleButton.state_manager.setStateTransition ButtonState.Normal
        ButtonState.Pressed).transitions :=
  ⟨by decide,
    (setStateTransition_idempotent exampleButton.state_manager ButtonState.Normal
      ButtonState.Pressed 3 (by decide)).1,
    fun hmem =>
      ((setStateTransition_idempotent exampleButton.state_manager ButtonState.Normal
        ButtonState.Pressed 3 (by decide)).2.2 hmem).elim (by decide) (by decide)⟩

/-! ## Boundary and degenerate rectangles -/

/-- C17, as amended: a pointer with 32-bit `int` coordinates whose x is
`rect.x` or `rect.x + rect.w`, or whose y is `rect.y` or `rect.y + rect.h`, is
not hovered, whatever its other coordinate and whatever the rectangle; and
when `rect.w ≥ 2`, `rect.h ≥ 2` and the sums `rect.x + rect.w` and
`rect.y + rect.h` are representable as a 32-bit `int`, the pointer
`(rect.x + 1, rect.y + 1)` is hovered. -/
theorem hit_test_boundary (render_rect : SDL_Rect) :
    (∀ mouse_x mouse_y : Int,
      (-2147483648 ≤ mouse_x ∧ mouse_x ≤ 2147483647) →
      (-2147483648 ≤ mouse_y ∧ mouse_y ≤ 2147483647) →
      (mouse_x = render_rect.x ∨ mouse_x = render_rect.x + render_rect.w ∨
        mouse_y = render_rect.y ∨ mouse_y = render_rect.y + render_rect.h) →
      isMouseHovered mouse_x mouse_y render_rect = false) ∧
    (2 ≤ render_rect.w → 2 ≤ render_rect.h →
      (-2147483648 ≤ render_rect.x + render_rect.w ∧
        render_rect.x + render_rect.w ≤ 2147483647) →
      (-2147483648 ≤ render_rect.y + render_rect.h ∧
        render_rect.y + render_rect.h ≤ 2147483647) →
      isMouseHovered (render_rect.x + 1) (render_rect.y + 1) render_rect = true) := by
  constructor
  · intro mouse_x mouse_y hpx hpy hb
    rw [← Bool.not_eq_true, isMouseHovered_eq_true_iff]
    unfold intAdd
    omega
  · intro hw hh hx hy
    rw [isMouseHovered_eq_true_iff, intAdd_eq_add _ _ hx, intAdd_eq_add _ _ hy]
    omega

/-- C17, witness of the amended statement: the rectangle at (100, 100), 40 wide
and 20 high; its corners (100, 100) and (140, 100) are not hovered,
(101, 101) is. -/
theorem hit_test_boundary_witness :
    isMouseHovered 100 100 { x := 100, y := 100, w := 40, h := 20 } = false ∧
    isMouseHovered (100 + 40) 100 { x := 100, y := 100, w := 40, h := 20 } = false ∧
    isMouseHovered (100 + 1) (100 + 1) { x := 100, y := 100, w := 40, h := 20 } = true :=
  ⟨(hit_test_boundary { x := 100, y := 100, w := 40, h := 20 }).1 100 100
      (by decide) (by decide) (Or.inl rfl),
    (hit_test_boundary { x := 100, y := 100, w := 40, h := 20 }).1 (100 + 40) 100
      (by decide) (by decide) (Or.inr (Or.inl rfl)),
    (hit_test_boundary { x := 100, y := 100, w := 40, h := 20 }).2 (by decide) (by decide)
      (by decide) (by decide)⟩

/-- C17, counterexample: the rectangle at (2147483646, 0), 2 wide and 2 high,
has `w ≥ 2` and `h ≥ 2`, and the pointer `(rect.x + 1, rect.y + 1)`, which is
(2147483647, 1), is not hovered: the sum `x + w` is 2147483648, which is not
representable, and the 32-bit sum the code compares with is -2147483648. -/
theorem inner_corner_missed_when_sum_overflows :
    ((2 : Int) ≤ 2 ∧ (2 : Int) ≤ 2) ∧
    ((2147483646 : Int) + 1 = 2147483647 ∧ (0 : Int) + 1 = 1) ∧
    intAdd 2147483646 2 = -2147483648 ∧
    isMouseHovered (2147483646 + 1) (0 + 1) { x := 2147483646, y := 0, w := 2, h := 2 } =
      false :=
  ⟨by decide, by decide, by decide, by decide⟩

theorem isMouseHovered_degenerate (render_rect : SDL_Rect)
    (hdeg : (render_rect.w ≤ 1 ∧ -2147483648 ≤ render_rect.x + render_rect.w) ∨
      (render_rect.h ≤ 1 ∧ -2147483648 ≤ render_rect.y + render_rect.h))
    (mouse_x mouse_y : Int) :
    isMouseHovered mouse_x mouse_y render_rect = false := by
  rw [← Bool.not_eq_true, isMouseHovered_eq_true_iff]
  unfold intAdd
  omega

/-- C19, as amended: a rectangle with `w ≤ 1` whose sum `x + w` does not fall
below the least 32-bit `int`, or with `h ≤ 1` whose sum `y + h` does not, is
hit by no pointer position; while a resource with such a rectangle is the
active one, the hover-in, press and release callbacks enter no hook for any
event and pointer position, and in state `Hovered` the hover-out callback
enters its hook for every event and pointer position. -/
theorem degenerate_rect_never_hit (render_rect : SDL_Rect)
    (hdeg : (render_rect.w ≤ 1 ∧ -2147483648 ≤ render_rect.x + render_rect.w) ∨
      (render_rect.h ≤ 1 ∧ -2147483648 ≤ render_rect.y + render_rect.h)) :
    (∀ mouse_x mouse_y : Int, isMouseHovered mouse_x mouse_y render_rect = false) ∧
    ∀ (self : BasicButtonObject) (tex : ImageTexture) (ev : SDL_Event) (mouse_x mouse_y : Int),
      self.state_manager.activeStateObject = some tex → tex.renderRect = render_rect →
      (self._onMouseHovered ev mouse_x mouse_y).invoked = [] ∧
      (self._onButtonPressed ev mouse_x mouse_y).invoked = [] ∧
      (self._onButtonReleased ev mouse_x mouse_y).invoked = [] ∧
      (self.state_manager.activeState = ButtonState.Hovered →
        (self._onMouseUnhovered ev mouse_x mouse_y).invoked = [Hook.onMouseUnhovered]) := by
  refine ⟨isMouseHovered_degenerate render_rect hdeg, ?_⟩
  intro self tex ev mouse_x mouse_y hobj hrect
  have hmiss := isMouseHovered_degenerate render_rect hdeg mouse_x mouse_y
  rw [← hrect] at hmiss
  refine ⟨?_, ?_, ?_, ?_⟩
  · rw [onMouseHovered_of_active _ _ _ _ tex hobj]
    simp [hmiss, Outcome.skip]
  · rw [onButtonPressed_of_active _ _ _ _ tex hobj]
    simp [isPressed, hmiss, Outcome.skip]
  · rw [onButtonReleased_of_active _ _ _ _ tex hobj]
    simp [isReleased, hmiss, Outcome.skip]
  · intro hst
    rw [onMouseUnhovered_of_active _ _ _ _ tex hobj]
    simp [isMouseUnhovered, hmiss, hst, BasicButtonObject.onMouseUnhovered,
      transitionAndResize_invoked]

/-- C19, witness of the amended statement: the rectangle 1 wide and 20 high at
(100, 100), active on a button in state `Hovered`, a left button-down event
and the pointer at (100, 110). -/
theorem degenerate_rect_never_hit_witness :
    (((1 : Int) ≤ 1 ∧ (-2147483648 : Int) ≤ 100 + 1) ∨
      ((20 : Int) ≤ 1 ∧ (-2147483648 : Int) ≤ 100 + 20)) ∧
    flatButton.state_manager.activeState = ButtonState.Hovered ∧
    isMouseHovered 100 110 { x := 100, y := 100, w := 1, h := 20 } = false ∧
    (flatButton._onMouseHovered { type := SDL_MOUSEBUTTONDOWN, button := SDL_BUTTON_LEFT }
      100 110).invoked = [] ∧
    (flatButton._onButtonPressed { type := SDL_MOUSEBUTTONDOWN, button := SDL_BUTTON_LEFT }
      100 110).invoked = [] ∧
    (flatButton._onButtonReleased { type := SDL_MOUSEBUTTONDOWN, button := SDL_BUTTON_LEFT }
      100 110).invoked = [] ∧
    (flatButton._onMouseUnhovered { type := SDL_MOUSEBUTTONDOWN, button := SDL_BUTTON_LEFT }
      100 110).invoked = [Hook.onMouseUnhovered] :=
  have t := degenerate_rect_never_hit { x := 100, y := 100, w := 1, h := 20 }
    (Or.inl (by decide))
  have u := t.2 flatButton
    { name := "flat", renderRect := { x := 100, y := 100, w := 1, h := 20 } }
    { type := SDL_MOUSEBUTTONDOWN, button := SDL_BUTTON_LEFT } 100 110 rfl rfl
  ⟨Or.inl (by decide), rfl, t.1 100 110, u.1, u.2.1, u.2.2.1, u.2.2.2 rfl⟩

/-- C19, counterexample: the rectangle at (-2147483648, 0) with `w = -1` and
`h = 10` has `w ≤ 1`, and the pointer at (0, 5) is hovered: the sum `x + w` is
-2147483649, which is not representable, and the 32-bit sum the code compares
with is 2147483647.  A button in state `Normal` with that rectangle active
enters its hover-in hook. -/
theorem degenerate_rect_hit_when_sum_underflows :
    (-1 : Int) ≤ 1 ∧
    intAdd (-2147483648) (-1) = 2147483647 ∧
    isMouseHovered 0 5 { x := -2147483648, y := 0, w := -1, h := 10 } = true ∧
    (({ exampleButton with
        state_manager := { exampleButton.state_manager with
          objects := fun _ =>
            some { name := "wide", renderRect := { x := -2147483648, y := 0, w := -1, h := 10 } } } } :
      BasicButtonObject)._onMouseHovered { type := 0x400, button := 0 } 0 5).invoked =
      [Hook.onMouseHovered] :=
  ⟨by decide, by decide, by decide, by decide⟩

/-! ## State closure -/

theorem transitionAndResize_bound (self : BasicButtonObject) (hook : Hook)
    (target : ButtonState)
    (hb : self.state_manager.activeStateObject.isSome = true) :
    (self.transitionAndResize hook target).self.state_manager.activeStateObject.isSome =
      true := by
  rcases transitionAndResize_cases self hook target with
    ⟨h1, _, _⟩ | ⟨tex, htex, _, h1, _, _⟩
  · rw [h1]
    exact hb
  · rw [h1]
    show (self.state_manager.objects target).isSome = true
    rw [htex]
    rfl

theorem run_bound (cb : EventCallback) (self : BasicButtonObject) (ev : SDL_Event)
    (mouse_x mouse_y : Int)
    (hb : self.state_manager.activeStateObject.isSome = true) :
    (cb.run self ev mouse_x mouse_y).self.state_manager.activeStateObject.isSome = true := by
  rcases run_idle_or_hook cb self ev mouse_x mouse_y with ⟨h1, _⟩ | ⟨hook, target, h⟩
  · rw [h1]
    exact hb
  · rw [h]
    exact transitionAndResize_bound self hook target hb

theorem foldl_run_bound (ev : SDL_Event) (mouse_x mouse_y : Int) (l : List EventCallback)
    (acc : Outcome)
    (hb : acc.self.state_manager.activeStateObject.isSome = true) :
    (l.foldl (fun acc cb => acc.andThen (cb.run acc.self ev mouse_x mouse_y))
      acc).self.state_manager.activeStateObject.isSome = true := by
  induction l generalizing acc with
  | nil => exact hb
  | cons cb rest ih =>
    rw [List.foldl_cons]
    exact ih _ (run_bound cb acc.self ev mouse_x mouse_y hb)

theorem requestTransition_bound (self : BasicButtonObject) (target : ButtonState)
    (hb : self.state_manager.activeStateObject.isSome = true) :
    (self.requestTransition target).state_manager.activeStateObject.isSome = true := by
  unfold BasicButtonObject.requestTransition
  cases hst : self.state_manager.stateTransition target with
  | error e => exact hb
  | ok m =>
    obtain ⟨hsome, _, rfl⟩ := (stateTransition_eq_ok_iff _ _ _).1 hst
    exact hsome

theorem react_bound (self : BasicButtonObject) (stimulus : Stimulus)
    (hb : self.state_manager.activeStateObject.isSome = true) :
    (self.react stimulus).state_manager.activeStateObject.isSome = true := by
  cases stimulus with
  | event ev mouse_x mouse_y =>
    show (self.dispatch ev mouse_x mouse_y).toOutcome.self.state_manager.activeStateObject.isSome =
      true
    rw [dispatch_toOutcome]
    exact foldl_run_bound ev mouse_x mouse_y self.callbacks (Outcome.skip self) hb
  | request target => exact requestTransition_bound self target hb

theorem runStimuli_bound (stimuli : List Stimulus) (self : BasicButtonObject)
    (hb : self.state_manager.activeStateObject.isSome = true) :
    (self.runStimuli stimuli).state_manager.activeStateObject.isSome = true := by
  induction stimuli generalizing self with
  | nil => exact hb
  | cons stimulus rest ih =>
    unfold BasicButtonObject.runStimuli at ih ⊢
    rw [List.foldl_cons]
    exact ih _ (react_bound self stimulus hb)

/-- C15: on a button built by the constructor, with or without the optional
textures, after every sequence of events and direct transition requests the
active state has a bound resource, so `activeStateObject` is defined; the same
holds at every point inside the dispatch of a further event, whatever
callbacks are registered. -/
theorem active_state_always_bound (loader : String → Option (Int × Int)) (name : String)
    (x y : Int) (path_normal path_hovered path_pressed : String) (b : BasicButtonObject)
    (h : BasicButtonObject.new loader name x y path_normal path_hovered path_pressed = .ok b)
    (stimuli : List Stimulus) :
    (∃ tex, (b.runStimuli stimuli).state_manager.activeStateObject = some tex ∧
      (b.runStimuli stimuli).state_manager.objects
        (b.runStimuli stimuli).state_manager.activeState = some tex) ∧
    ∀ (l : List EventCallback) (ev : SDL_Event) (mouse_x mouse_y : Int),
      (({ b.runStimuli stimuli with callbacks := l } : BasicButtonObject).dispatch ev
        mouse_x mouse_y).self.state_manager.activeStateObject.isSome = true := by
  obtain ⟨_, _, hactive, tex, htex, _⟩ :=
    new_eq_ok loader name x y path_normal path_hovered path_pressed b h
  have hb : b.state_manager.activeStateObject.isSome = true := by
    unfold StatefulObjectManager.activeStateObject
    rw [hactive, htex]
    rfl
  have hrun := runStimuli_bound stimuli b hb
  constructor
  · obtain ⟨t, ht⟩ := Option.isSome_iff_exists.1 hrun
    exact ⟨t, ht, ht⟩
  · intro l ev mouse_x mouse_y
    rw [dispatch_toOutcome]
    exact foldl_run_bound ev mouse_x mouse_y l (Outcome.skip _) hrun

/-- C15, witness: the button with `Normal` alone bound, after a pointer motion
inside its rectangle, a direct request for `Pressed` and a direct request for
`Hovered`: `Normal` is still active and bound. -/
theorem active_state_always_bound_witness :
    BasicButtonObject.new exampleLoader "n" 100 100 "nnnn" "" "" = .ok normalOnlyButton ∧
    (normalOnlyButton.runStimuli
      [Stimulus.event { type := 0x400, button := 0 } 110 110,
        Stimulus.request ButtonState.Pressed,
        Stimulus.request ButtonState.Hovered]).state_manager.activeState =
      ButtonState.Normal ∧
    ∃ tex, (normalOnlyButton.runStimuli
      [Stimulus.event { type := 0x400, button := 0 } 110 110,
        Stimulus.request ButtonState.Pressed,
        Stimulus.request ButtonState.Hovered]).state_manager.activeStateObject = some tex :=
  ⟨new_normalOnlyButton, by decide,
    (active_state_always_bound exampleLoader "n" 100 100 "nnnn" "" "" normalOnlyButton
      new_normalOnlyButton
      [Stimulus.event { type := 0x400, button := 0 } 110 110,
        Stimulus.request ButtonState.Pressed,
        Stimulus.request ButtonState.Hovered]).1.imp (fun _ ht => ht.1)⟩

/-! ## A button with `Normal` alone hoverable -/

end Truffle
